import Mathlib

/-!
Shallow embedding of the route compiler in `src/common/routes/index.ts`.

Conventions of the embedding:
* JavaScript objects used as string-keyed tables (`areas`, `killWaypoints`,
  `lookup.towns`) are modelled as association lists; a JS object cannot hold
  a duplicate key, so theorems that depend on key uniqueness assume `Nodup`
  on the key list.
* A JS `Set` preserves insertion order, so it is modelled as a duplicate-free
  list with `jsSetAdd` appending only when the element is absent.
* The JS value `undefined` flowing into `state.currentAreaId` (possible via
  `lookup.towns[currentArea.act]` misses) is modelled by `Option`: `none` is
  `undefined`/`null`.  Property access on `undefined` raises a `TypeError` in
  JS; an evaluator reaching such an access yields the `fault` outcome.
* Evaluators mutate the state in place in JS; here they return the new state.
  Every fault happens before the first mutation of the corresponding source
  function, so a `fault` outcome returns the entry state.
-/

namespace ExileRoutes

/-- External world-graph node (`Area` of `src/common/types`): id, act number,
name, connectivity, town/waypoint flags, crafting recipe names. -/
structure Area where
  id : String
  act : Nat
  name : String
  connection_ids : List String
  is_town_area : Bool
  has_waypoint : Bool
  crafting_recipes : List String
deriving DecidableEq, Repr

/-- The external read-only tables imported from `common/data`:
`areas` (keyed by area id) and `killWaypoints` (boss name to unlocked
waypoint area ids). -/
structure GameData where
  areas : List (String × Area)
  killWaypoints : List (String × List String)
deriving DecidableEq, Repr

/-- One bracketed token group split on the pipe character. -/
abbrev ParsedAction := List String

/-- `RequiredGem` of the build data. -/
structure RequiredGem where
  id : String
  note : String
deriving DecidableEq, Repr

/-- Opaque optional input record carried by the lookup. -/
structure BuildData where
  characterClass : String
  requiredGems : List RequiredGem
deriving DecidableEq, Repr

/-- `RouteLookup`: act number to that act's town area id, plus build data. -/
structure RouteLookup where
  towns : List (Nat × String)
  buildData : Option BuildData
deriving DecidableEq, Repr

/-- The single mutable traversal state threaded through every evaluator. -/
structure RouteState where
  implicitWaypoints : List String
  explicitWaypoints : List String
  usedWaypoints : List String
  craftingAreas : List String
  currentAreaId : Option String
  lastTownAreaId : String
  portalAreaId : Option String
  acquiredGems : List String
deriving DecidableEq, Repr

/-- `Set.add`: a JS `Set` keeps insertion order and ignores duplicates. -/
def jsSetAdd (s : List String) (x : String) : List String :=
  if x ∈ s then s else s ++ [x]

/-- The closed tagged union of resolved actions, one variant per verb.
The payloads of the external `quest`/`quest_text` variants are opaque to this
core and modelled as strings. -/
inductive Action where
  | kill (value : String)
  | arena (value : String)
  | area (areaId : String)
  | enter (areaId : String)
  | town
  | waypoint (areaId : Option String)
  | get_waypoint
  | set_portal
  | use_portal
  | quest (payload : String)
  | quest_text (payload : String)
  | generic (value : String)
  | trial
  | ascend
  | dir (dirIndex : Int)
  | crafting (crafting_recipes : List String)
deriving DecidableEq, Repr

/-- Modelled from the spec: `RewardStep` is produced only by the external
quest evaluator subsystem and is opaque to this core. -/
structure RewardStep where
  payload : String
deriving DecidableEq, Repr

/-- A compiled step: literal fragments interleaved with resolved actions, or
an external reward marker. -/
inductive Step where
  | action_step (parts : List (String ⊕ Action))
  | reward (r : RewardStep)
deriving DecidableEq, Repr

/-- A compiled route: one list of steps per input document. -/
abbrev Route := List Step

def ERROR_INVALID_FORMAT : String := "invalid format"
def ERROR_MISSING_AREA : String := "area does not exist"
def ERROR_AREA_NO_WAYPOINT : String := "area does not have a waypoint"

/-- Success payload of an evaluator: an optional resolved action plus steps
to splice in immediately after the current one. -/
structure EvaluateResult where
  action : Option Action
  additionalSteps : List Step
deriving DecidableEq, Repr

/-- Result of one evaluator invocation: a thrown JS `TypeError` (`fault`), a
string diagnostic, or a success payload. -/
inductive EvalOutcome where
  | fault
  | err (msg : String)
  | ok (res : EvaluateResult)
deriving DecidableEq, Repr

/-- Call contract of the external quest evaluators. -/
abbrev QuestEval := ParsedAction → RouteLookup → RouteState → EvalOutcome × RouteState

/-- JS property access `areas[k]` where `k` may be `undefined`: an
`undefined` key is coerced to the property name "undefined". -/
def lookupAreaOpt (areas : List (String × Area)) (k : Option String) : Option Area :=
  List.lookup (k.getD "undefined") areas

/-- JS falsiness of a `string | null | undefined` value: `null`, `undefined`
and the empty string are falsy. -/
def jsFalsyStr (v : Option String) : Bool :=
  match v with
  | none => true
  | some s => s = ""

/-- `EvaluateKill` (lines 69-94): unlock the boss's waypoints, no validation
of the boss name (disabled in the source pending complete data). -/
def EvaluateKill (d : GameData) (action : ParsedAction) (_lookup : RouteLookup)
    (state : RouteState) : EvalOutcome × RouteState :=
  match action with
  | [_, bossName] =>
    let state₁ :=
      match List.lookup bossName d.killWaypoints with
      | some waypointUnlocks =>
        { state with implicitWaypoints := waypointUnlocks.foldl jsSetAdd state.implicitWaypoints }
      | none => state
    (.ok ⟨some (.kill bossName), []⟩, state₁)
  | _ => (.err ERROR_INVALID_FORMAT, state)

/-- `EvaluateArena` (lines 101-113). -/
def EvaluateArena (_d : GameData) (action : ParsedAction) (_lookup : RouteLookup)
    (state : RouteState) : EvalOutcome × RouteState :=
  match action with
  | [_, name] => (.ok ⟨some (.arena name), []⟩, state)
  | _ => (.err ERROR_INVALID_FORMAT, state)

/-- `EvaluateArea` (lines 120-136): the named area must exist. -/
def EvaluateArea (d : GameData) (action : ParsedAction) (_lookup : RouteLookup)
    (state : RouteState) : EvalOutcome × RouteState :=
  match action with
  | [_, arg] =>
    match List.lookup arg d.areas with
    | none => (.err ERROR_MISSING_AREA, state)
    | some area => (.ok ⟨some (.area area.id), []⟩, state)
  | _ => (.err ERROR_INVALID_FORMAT, state)

/-- `EvaluateEnter` (lines 143-167): the target must exist and list the
current area among its connections; entering a town records it as the last
town and implicitly unlocks its waypoint when it has one. -/
def EvaluateEnter (d : GameData) (action : ParsedAction) (_lookup : RouteLookup)
    (state : RouteState) : EvalOutcome × RouteState :=
  match action with
  | [_, arg] =>
    match List.lookup arg d.areas with
    | none => (.err ERROR_MISSING_AREA, state)
    | some area =>
      if ¬ area.connection_ids.any (fun x => decide (some x = state.currentAreaId)) then
        (.err "not connected to current area", state)
      else
        let state₁ :=
          if area.is_town_area then
            { state with
              lastTownAreaId := area.id
              implicitWaypoints :=
                if area.has_waypoint then jsSetAdd state.implicitWaypoints area.id
                else state.implicitWaypoints }
          else state
        (.ok ⟨some (.enter area.id), []⟩, { state₁ with currentAreaId := some area.id })
  | _ => (.err ERROR_INVALID_FORMAT, state)

/-- `EvaluateTown` (lines 173-187): go back to the last town.  The source
reads `areas[state.currentAreaId]` into an unused local; that read alone
cannot fault. -/
def EvaluateTown (_d : GameData) (action : ParsedAction) (_lookup : RouteLookup)
    (state : RouteState) : EvalOutcome × RouteState :=
  match action with
  | [_] => (.ok ⟨some .town, []⟩, { state with currentAreaId := some state.lastTownAreaId })
  | _ => (.err ERROR_INVALID_FORMAT, state)

/-- `EvaluateWaypoint` (lines 194-229): with an argument, the target must
exist and be a known waypoint, and the current area must have a waypoint;
travelling marks the current area implicitly known and the target used.
The unguarded `currentArea.has_waypoint` read faults when the current area
is not in the table. -/
def EvaluateWaypoint (d : GameData) (action : ParsedAction) (_lookup : RouteLookup)
    (state : RouteState) : EvalOutcome × RouteState :=
  match action with
  | [_] => (.ok ⟨some (.waypoint none), []⟩, state)
  | [_, arg] =>
    match List.lookup arg d.areas with
    | none => (.err ERROR_MISSING_AREA, state)
    | some area =>
      if ¬ (area.id ∈ state.implicitWaypoints ∨ area.id ∈ state.explicitWaypoints) then
        (.err "missing target waypoint", state)
      else
        match lookupAreaOpt d.areas state.currentAreaId with
        | none => (.fault, state)
        | some currentArea =>
          if ¬ currentArea.has_waypoint then (.err ERROR_AREA_NO_WAYPOINT, state)
          else
            (.ok ⟨some (.waypoint (some area.id)), []⟩,
              { state with
                implicitWaypoints := jsSetAdd state.implicitWaypoints currentArea.id
                usedWaypoints := jsSetAdd state.usedWaypoints area.id
                currentAreaId := some area.id })
  | _ => (.err ERROR_INVALID_FORMAT, state)

/-- `EvaluateGetWaypoint` (lines 235-254): the current area must exist, have
a waypoint, and not be implicitly known already; acquires it explicitly. -/
def EvaluateGetWaypoint (d : GameData) (action : ParsedAction) (_lookup : RouteLookup)
    (state : RouteState) : EvalOutcome × RouteState :=
  match action with
  | [_] =>
    match lookupAreaOpt d.areas state.currentAreaId with
    | none => (.err ERROR_MISSING_AREA, state)
    | some area =>
      if ¬ area.has_waypoint then (.err ERROR_AREA_NO_WAYPOINT, state)
      else if area.id ∈ state.implicitWaypoints then (.err "waypoint already acquired", state)
      else
        (.ok ⟨some .get_waypoint, []⟩,
          { state with explicitWaypoints := jsSetAdd state.explicitWaypoints area.id })
  | _ => (.err ERROR_INVALID_FORMAT, state)

/-- `EvaluateSetPortal` (lines 260-273): anchor the portal at the current
area. -/
def EvaluateSetPortal (_d : GameData) (action : ParsedAction) (_lookup : RouteLookup)
    (state : RouteState) : EvalOutcome × RouteState :=
  match action with
  | [_] => (.ok ⟨some .set_portal, []⟩, { state with portalAreaId := state.currentAreaId })
  | _ => (.err ERROR_INVALID_FORMAT, state)

/-- `EvaluateUsePortal` (lines 279-303): requires a truthy anchor; from the
anchor area travel to that act's town (anchor kept), from a town travel to
the anchor (anchor cleared).  The unguarded `currentArea.id` read faults
when the current area is not in the table. -/
def EvaluateUsePortal (d : GameData) (action : ParsedAction) (lookup : RouteLookup)
    (state : RouteState) : EvalOutcome × RouteState :=
  match action with
  | [_] =>
    if jsFalsyStr state.portalAreaId then (.err "portal must be set", state)
    else
      match lookupAreaOpt d.areas state.currentAreaId with
      | none => (.fault, state)
      | some currentArea =>
        if some currentArea.id = state.portalAreaId then
          (.ok ⟨some .use_portal, []⟩,
            { state with
              portalAreaId := state.currentAreaId
              currentAreaId := List.lookup currentArea.act lookup.towns })
        else if ¬ currentArea.is_town_area then
          (.err "can only use portal from town or portal area", state)
        else
          (.ok ⟨some .use_portal, []⟩,
            { state with currentAreaId := state.portalAreaId, portalAreaId := none })
  | _ => (.err ERROR_INVALID_FORMAT, state)

/-- `EvaluateGeneric` (lines 310-322). -/
def EvaluateGeneric (_d : GameData) (action : ParsedAction) (_lookup : RouteLookup)
    (state : RouteState) : EvalOutcome × RouteState :=
  match action with
  | [_, value] => (.ok ⟨some (.generic value), []⟩, state)
  | _ => (.err ERROR_INVALID_FORMAT, state)

/-- `EvaluateTrial` (lines 328-339). -/
def EvaluateTrial (_d : GameData) (action : ParsedAction) (_lookup : RouteLookup)
    (state : RouteState) : EvalOutcome × RouteState :=
  match action with
  | [_] => (.ok ⟨some .trial, []⟩, state)
  | _ => (.err ERROR_INVALID_FORMAT, state)

/-- `EvaluateAscend` (lines 345-366): only from the fixed Labyrinth entry
area; moves to the last town.  Both table reads are unguarded and fault on
a missing entry. -/
def EvaluateAscend (d : GameData) (action : ParsedAction) (_lookup : RouteLookup)
    (state : RouteState) : EvalOutcome × RouteState :=
  match action with
  | [_] =>
    match lookupAreaOpt d.areas state.currentAreaId with
    | none => (.fault, state)
    | some currentArea =>
      if currentArea.id ≠ "Labyrinth_Airlock" then
        match List.lookup "Labyrinth_Airlock" d.areas with
        | none => (.fault, state)
        | some expectedArea => (.err ("must be in \"" ++ expectedArea.name ++ "\""), state)
      else
        (.ok ⟨some .ascend, []⟩, { state with currentAreaId := some state.lastTownAreaId })
  | _ => (.err ERROR_INVALID_FORMAT, state)

/-- `EvaluateCrafting` (lines 373-394): mark the named (or current) area as a
visited crafting area; the `area.id` read faults when the bare form is used
while the current area is missing from the table. -/
def EvaluateCrafting (d : GameData) (action : ParsedAction) (_lookup : RouteLookup)
    (state : RouteState) : EvalOutcome × RouteState :=
  if action.length > 2 then (.err ERROR_INVALID_FORMAT, state)
  else if action.length = 1 then
    match lookupAreaOpt d.areas state.currentAreaId with
    | none => (.fault, state)
    | some area =>
      (.ok ⟨some (.crafting area.crafting_recipes), []⟩,
        { state with craftingAreas := jsSetAdd state.craftingAreas area.id })
  else
    match List.lookup ((action.get? 1).getD "undefined") d.areas with
    | none => (.err ERROR_MISSING_AREA, state)
    | some area =>
      (.ok ⟨some (.crafting area.crafting_recipes), []⟩,
        { state with craftingAreas := jsSetAdd state.craftingAreas area.id })

/-- Truncation toward zero, the rounding used by the JS `%` operator. -/
def ratTrunc (q : ℚ) : ℤ := if 0 ≤ q then ⌊q⌋ else ⌈q⌉

/-- The JS remainder operator `%` on (exactly representable) numbers. -/
def jsRem (a b : ℚ) : ℚ := a - b * (ratTrunc (a / b) : ℚ)

def isDigitChar (c : Char) : Bool := '0' ≤ c && c ≤ '9'

def natOfDigits (l : List Char) : ℕ :=
  l.foldl (fun acc c => 10 * acc + (c.toNat - '0'.toNat)) 0

/-- JS whitespace (the regex backslash-s class and parseFloat leading
space), by code point: tab, line feed, vertical tab, form feed, carriage
return, space, no-break space, ogham space mark, the en-quad..hair-space
range, line separator, paragraph separator, narrow no-break space, medium
mathematical space, ideographic space, byte-order mark. -/
def isJsSpace (c : Char) : Bool :=
  c == ' ' || c == '\t' || c == '\n' || c.toNat == 0x0b || c.toNat == 0x0c || c == '\r' ||
  c.toNat == 0xa0 || c.toNat == 0x1680 || (0x2000 <= c.toNat && c.toNat <= 0x200a) ||
  c.toNat == 0x2028 || c.toNat == 0x2029 || c.toNat == 0x202f || c.toNat == 0x205f ||
  c.toNat == 0x3000 || c.toNat == 0xfeff

/-- A JS `number` as observed by the `dir` evaluator: `NaN`, an infinity,
or a finite binary64 value carried as its exact rational value.  Negative
zero is identified with zero: the two compare equal with `<`, `==` and
`!=`, behave identically under `%` here, and stringify the same, so the
evaluator cannot distinguish them. -/
inductive JsNumber where
  | nan
  | inf (neg : Bool)
  | num (q : ℚ)
deriving DecidableEq, Repr

/-- A parsed `StrDecimalLiteral`: the `Infinity` token, or a decimal with
integer part, fraction-digits value and length, and decimal exponent. -/
inductive DecLit where
  | infinity
  | dec (intPart fracPart fracLen : ℕ) (exp : ℤ)
deriving DecidableEq, Repr

/-- The longest `StrDecimalLiteral` prefix of the input after leading
whitespace (ECMA-262, `parseFloat`): optional sign, then the `Infinity`
token, or digits with an optional fraction and an optional exponent part
(`e`/`E`, optional sign, at least one digit, else the exponent part is not
consumed).  `none` when no prefix parses (the `NaN` case).  `parseFloat`
does not accept hexadecimal: `0x10` parses as the prefix `0`. -/
def parseDecimal (str : String) : Option (Bool × DecLit) :=
  let cs := str.toList.dropWhile isJsSpace
  let signAndRest : Bool × List Char :=
    match cs with
    | c :: rest => if c = '-' then (true, rest) else if c = '+' then (false, rest) else (false, cs)
    | [] => (false, cs)
  if signAndRest.2.take 8 = "Infinity".toList then some (signAndRest.1, .infinity)
  else
    let intDigits := signAndRest.2.takeWhile isDigitChar
    let rest₁ := signAndRest.2.dropWhile isDigitChar
    let fracAndRest : List Char × List Char :=
      match rest₁ with
      | '.' :: r => (r.takeWhile isDigitChar, r.dropWhile isDigitChar)
      | _ => ([], rest₁)
    if intDigits.isEmpty && fracAndRest.1.isEmpty then none
    else
      let exp : ℤ :=
        match fracAndRest.2 with
        | c :: r =>
          if c = 'e' ∨ c = 'E' then
            match r with
            | d :: r₂ =>
              if d = '-' then
                if (r₂.takeWhile isDigitChar).isEmpty then 0
                else -(natOfDigits (r₂.takeWhile isDigitChar) : ℤ)
              else if d = '+' then
                if (r₂.takeWhile isDigitChar).isEmpty then 0
                else (natOfDigits (r₂.takeWhile isDigitChar) : ℤ)
              else
                if (r.takeWhile isDigitChar).isEmpty then 0
                else (natOfDigits (r.takeWhile isDigitChar) : ℤ)
            | [] => 0
          else 0
        | [] => 0
      some (signAndRest.1,
        .dec (natOfDigits intDigits) (natOfDigits fracAndRest.1) fracAndRest.1.length exp)

/-- The exact mathematical value of a parsed decimal literal. -/
def decValue (neg : Bool) (i f fl : ℕ) (ex : ℤ) : ℚ :=
  (if neg then -1 else 1) * (((i : ℚ) + (f : ℚ) / 10 ^ fl) * (10 : ℚ) ^ ex)

/-- Round to the nearest integer, ties to even. -/
def roundHalfEven (x : ℚ) : ℤ :=
  if x - ⌊x⌋ < 1 / 2 then ⌊x⌋
  else if 1 / 2 < x - ⌊x⌋ then ⌊x⌋ + 1
  else if ⌊x⌋ % 2 = 0 then ⌊x⌋ else ⌊x⌋ + 1

/-- Round an exact rational to the nearest IEEE-754 binary64 value (ties to
even): significand quantum `2 ^ (e - 52)` in the normal range, `2 ^ (-1074)`
for subnormals (exponent below -1022, including underflow to zero), and
overflow to infinity when the rounded magnitude reaches `2 ^ 1024`. -/
def roundDouble (q : ℚ) : JsNumber :=
  if q = 0 then .num 0
  else
    let x := |q|
    let e : ℤ := Int.log 2 x
    let p : ℤ := max (e - 52) (-1074)
    let n : ℤ := roundHalfEven (x / 2 ^ p)
    let r : ℚ := (n : ℚ) * 2 ^ p
    if (2 : ℚ) ^ (1024 : ℤ) ≤ r then .inf (decide (q < 0))
    else .num (if q < 0 then -r else r)

/-- Model of `Number.parseFloat`: the longest `StrDecimalLiteral` prefix
after whitespace; its exact mathematical value rounded to binary64 (the
correct rounding modern engines implement), the `Infinity` token giving the
infinite values, no parse giving `NaN`. -/
def jsParseFloat (str : String) : JsNumber :=
  match parseDecimal str with
  | none => .nan
  | some (neg, .infinity) => .inf neg
  | some (neg, .dec i f fl ex) => roundDouble (decValue neg i f fl ex)

/-- `EvaluateDirection` (lines 401-422): parse as a number, reduce modulo
360 shifted non-negative, require a multiple of 45, return the 45-degree
sector index.  Number semantics used: the remainder `%` of finite doubles
is exact (`fmod` incurs no rounding), so it is the exact `jsRem`; an
infinite `parsed` gives `NaN` for `parsed % 360`, `NaN < 0` is false and
`NaN % 45 != 0` holds, so the interval error returns; `dir₀ + 360` is a
double addition and rounds (`roundDouble`); were it infinite (it cannot
be), the same `NaN` propagation would give the interval error; in the
success branch `dir` is a multiple of 45 between 0 and 360, so the division
by 45 and `Math.floor` are exact and yield the integer `⌊dir / 45⌋`. -/
def EvaluateDirection (_d : GameData) (action : ParsedAction) (_lookup : RouteLookup)
    (state : RouteState) : EvalOutcome × RouteState :=
  match action with
  | [_, arg] =>
    match jsParseFloat arg with
    | .nan => (.err "dir value is not a number", state)
    | .inf _ => (.err "dir value must be in intervals of 45", state)
    | .num parsed =>
      let dir₀ := jsRem parsed 360
      match (if dir₀ < 0 then roundDouble (dir₀ + 360) else .num dir₀) with
      | .num dir =>
        if jsRem dir 45 ≠ 0 then (.err "dir value must be in intervals of 45", state)
        else (.ok ⟨some (.dir ⌊dir / 45⌋), []⟩, state)
      | .nan => (.err "dir value must be in intervals of 45", state)
      | .inf _ => (.err "dir value must be in intervals of 45", state)
  | _ => (.err ERROR_INVALID_FORMAT, state)

/-- `evaluateAction` (lines 451-492): dispatch on the verb; unknown verbs
(including the empty token) are a format error.  The external quest
evaluators are passed in as parameters `qe` and `qte`. -/
def evaluateAction (qe qte : QuestEval) (d : GameData) (action : ParsedAction)
    (lookup : RouteLookup) (state : RouteState) : EvalOutcome × RouteState :=
  if action.head? = some "kill" then EvaluateKill d action lookup state
  else if action.head? = some "arena" then EvaluateArena d action lookup state
  else if action.head? = some "area" then EvaluateArea d action lookup state
  else if action.head? = some "enter" then EvaluateEnter d action lookup state
  else if action.head? = some "town" then EvaluateTown d action lookup state
  else if action.head? = some "waypoint" then EvaluateWaypoint d action lookup state
  else if action.head? = some "get_waypoint" then EvaluateGetWaypoint d action lookup state
  else if action.head? = some "set_portal" then EvaluateSetPortal d action lookup state
  else if action.head? = some "use_portal" then EvaluateUsePortal d action lookup state
  else if action.head? = some "quest" then qe action lookup state
  else if action.head? = some "quest_text" then qte action lookup state
  else if action.head? = some "generic" then EvaluateGeneric d action lookup state
  else if action.head? = some "trial" then EvaluateTrial d action lookup state
  else if action.head? = some "crafting" then EvaluateCrafting d action lookup state
  else if action.head? = some "ascend" then EvaluateAscend d action lookup state
  else if action.head? = some "dir" then EvaluateDirection d action lookup state
  else (.err ERROR_INVALID_FORMAT, state)

/-- Insert-or-overwrite for the act-to-town table (a JS object keyed by act
number keeps the first insertion position but the last assigned value). -/
def townsUpsert (l : List (Nat × String)) (k : Nat) (v : String) : List (Nat × String) :=
  if (List.lookup k l).isSome then l.map (fun p => if p.1 = k then (k, v) else p)
  else l ++ [(k, v)]

/-- `initializeRouteLookup` (lines 504-516). -/
def initializeRouteLookup (d : GameData) (buildData : Option BuildData) : RouteLookup :=
  ⟨d.areas.foldl
      (fun towns p => if p.2.is_town_area then townsUpsert towns p.2.act p.2.id else towns) [],
    buildData⟩

/-- `initializeRouteState` (lines 518-531). -/
def initializeRouteState : RouteState :=
  ⟨[], [], [], [], some "1_1_1", "1_1_town", none, []⟩

/-! ## The lexer (`parseStep`, lines 39-62)

One line is scanned with the global regex
`(\s*#.*)|([^{#]+)|\{(.+?)\}` via `matchAll`.  At each position the three
alternatives are tried in order: a comment (optional whitespace, the hash
sign, then any non-line-terminator characters) which is dropped; a literal
run of characters that are neither an opening brace nor a hash sign; a
bracketed group closed by the first closing brace strictly after the first
interior character (non-greedy, at least one interior character, no
line terminators inside).  A position where no alternative matches (an
unclosed opening brace) is skipped.  The scanner below reproduces this:
each step consumes at least one character, so the explicit fuel (length of
the input plus one) is never exhausted. -/

def openBraceChar : Char := Char.ofNat 123

def closeBraceChar : Char := Char.ofNat 125

/-- A character the regex dot matches: anything but a line terminator. -/
def dotChar (c : Char) : Bool :=
  c != '\n' && c != '\r' && c.toNat != 0x2028 && c.toNat != 0x2029

/-- A character an alternative-2 literal run may contain. -/
def literalChar (c : Char) : Bool :=
  c != openBraceChar && c != '#'

/-- Interior of a non-greedy bracketed group: the shortest non-empty run of
dot-matching characters followed by the closing brace.  Returns the interior
and the characters after the closing brace, or `none` when the group never
closes. -/
def braceInner : List Char → Option (List Char × List Char)
  | [] => none
  | c :: rest =>
    if dotChar c then
      match rest with
      | d :: rest₂ =>
        if d = closeBraceChar then some ([c], rest₂)
        else (braceInner rest).map (fun p => (c :: p.1, p.2))
      | [] => none
    else none

/-- JS `String.prototype.split` on the pipe character. -/
def splitPipeAux : List Char → List Char → List String
  | [], acc => [String.mk acc.reverse]
  | c :: rest, acc =>
    if c = '|' then String.mk acc.reverse :: splitPipeAux rest []
    else splitPipeAux rest (c :: acc)

def splitPipe (cs : List Char) : List String := splitPipeAux cs []

/-- One fragment of a parsed line: literal text or a pipe-split action. -/
abbrev LinePart := String ⊕ ParsedAction

/-- The regex scan, with fuel bounding the recursion depth (each step
consumes at least one character, so `length + 1` fuel always suffices). -/
def scanPartsFuel : Nat → List Char → List LinePart
  | 0, _ => []
  | _ + 1, [] => []
  | fuel + 1, c :: rest =>
    let cs := c :: rest
    if (cs.dropWhile isJsSpace).head? = some '#' then
      scanPartsFuel fuel (((cs.dropWhile isJsSpace).drop 1).dropWhile dotChar)
    else if c = openBraceChar then
      match braceInner rest with
      | some (interior, after) => Sum.inr (splitPipe interior) :: scanPartsFuel fuel after
      | none => scanPartsFuel fuel rest
    else
      Sum.inl (String.mk (c :: rest.takeWhile literalChar))
        :: scanPartsFuel fuel (rest.dropWhile literalChar)

def scanParts (cs : List Char) : List LinePart := scanPartsFuel (cs.length + 1) cs

/-- `parseStep` (lines 39-62). -/
def parseStep (text : String) : List LinePart := scanParts text.toList

/-! ## The route assembler (`parseRoute`, lines 533-589) -/

/-- `routeSource.split` on any newline convention (carriage return plus
line feed, lone carriage return, or lone line feed). -/
def splitLinesAux : List Char → List Char → List String
  | [], acc => [String.mk acc.reverse]
  | '\r' :: '\n' :: rest, acc => String.mk acc.reverse :: splitLinesAux rest []
  | '\r' :: rest, acc => String.mk acc.reverse :: splitLinesAux rest []
  | '\n' :: rest, acc => String.mk acc.reverse :: splitLinesAux rest []
  | c :: rest, acc => splitLinesAux rest (c :: acc)

def splitLines (s : String) : List String := splitLinesAux s.toList []

/-- The per-action diagnostic logged by the assembler: the message, a colon
and space, then the token joined with commas (JS array-to-string). -/
def actionDiag (msg : String) (act : ParsedAction) : String :=
  msg ++ ": " ++ String.intercalate "," act

/-- Accumulated result of evaluating the fragments of one line. -/
structure LineEval where
  parts : List (String ⊕ Action)
  additional : List Step
  state : RouteState
  diags : List String
deriving DecidableEq, Repr

/-- The inner loop over one line's fragments (lines 553-565): literals are
kept, actions are dispatched; a string result is logged and the token
dropped, a success contributes its action and queues its extra steps.
`none` models a thrown `TypeError` aborting the whole run. -/
def evalParts (qe qte : QuestEval) (d : GameData) :
    List LinePart → RouteLookup → RouteState → Option LineEval
  | [], _, s => some ⟨[], [], s, []⟩
  | .inl txt :: rest, l, s =>
    (evalParts qe qte d rest l s).map (fun r => ⟨.inl txt :: r.parts, r.additional, r.state, r.diags⟩)
  | .inr act :: rest, l, s =>
    match evaluateAction qe qte d act l s with
    | (.fault, _) => none
    | (.err m, s₁) =>
      (evalParts qe qte d rest l s₁).map
        (fun r => ⟨r.parts, r.additional, r.state, actionDiag m act :: r.diags⟩)
    | (.ok res, s₁) =>
      (evalParts qe qte d rest l s₁).map
        (fun r =>
          ⟨(match res.action with | some a => [Sum.inr a] | none => []) ++ r.parts,
            res.additionalSteps ++ r.additional, r.state, r.diags⟩)

/-- One line's contribution to the route (lines 546-568): the built step is
kept only when it has at least one part; queued extra steps follow it. -/
def evalLine (qe qte : QuestEval) (d : GameData) (line : String) (l : RouteLookup)
    (s : RouteState) : Option (List Step × RouteState × List String) :=
  (evalParts qe qte d (parseStep line) l s).map
    (fun r =>
      ((if r.parts ≠ [] then [Step.action_step r.parts] else []) ++ r.additional,
        r.state, r.diags))

/-- The loop over one document's lines (lines 543-569); falsy (empty) lines
are skipped. -/
def evalLines (qe qte : QuestEval) (d : GameData) :
    List String → RouteLookup → RouteState → Option (Route × RouteState × List String)
  | [], _, s => some ([], s, [])
  | line :: rest, l, s =>
    if line = "" then evalLines qe qte d rest l s
    else
      match evalLine qe qte d line l s with
      | none => none
      | some (steps, s₁, ds) =>
        (evalLines qe qte d rest l s₁).map
          (fun r => (steps ++ r.1, r.2.1, ds ++ r.2.2))

/-- The loop over the documents (lines 538-572). -/
def evalDocs (qe qte : QuestEval) (d : GameData) :
    List String → RouteLookup → RouteState → Option (List Route × RouteState × List String)
  | [], _, s => some ([], s, [])
  | doc :: rest, l, s =>
    match evalLines qe qte d (splitLines doc) l s with
    | none => none
    | some (route, s₁, ds) =>
      (evalDocs qe qte d rest l s₁).map
        (fun r => (route :: r.1, r.2.1, ds ++ r.2.2))

/-- The message logged for an explicitly acquired but never used waypoint. -/
def unusedMsg (w : String) : String := "unused waypoint " ++ w

/-- The message logged for a crafting area that was never visited. -/
def craftMsg (a : Area) : String :=
  "missing crafting area " ++ a.id ++ ", " ++ String.intercalate ", " a.crafting_recipes

/-- The end-of-run consistency pass (lines 574-586): one log per explicitly
acquired waypoint never traveled to, then one log per external area with
crafting recipes never visited as a crafting area. -/
def postPassDiagnostics (d : GameData) (state : RouteState) : List String :=
  state.explicitWaypoints.foldl
    (fun acc w => if w ∈ state.usedWaypoints then acc else acc ++ [unusedMsg w]) []
  ++ d.areas.foldl
    (fun acc p =>
      if 0 < p.2.crafting_recipes.length ∧ p.2.id ∉ state.craftingAreas then
        acc ++ [craftMsg p.2]
      else acc) []

/-- `parseRoute` (lines 533-589): compile every document against the shared
state, then run the consistency pass.  The returned triple is the routes,
the final state, and the emitted diagnostics; `none` models a thrown
`TypeError`. -/
def parseRoute (qe qte : QuestEval) (d : GameData) (routeSources : List String)
    (lookup : RouteLookup) (state : RouteState) :
    Option (List Route × RouteState × List String) :=
  (evalDocs qe qte d routeSources lookup state).map
    (fun r => (r.1, r.2.1, r.2.2 ++ postPassDiagnostics d r.2.1))

/-! ## Dispatch lemmas: `evaluateAction` on each verb -/

lemma evaluateAction_kill (qe qte : QuestEval) (d : GameData) (rest : List String)
    (l : RouteLookup) (s : RouteState) :
    evaluateAction qe qte d ("kill" :: rest) l s = EvaluateKill d ("kill" :: rest) l s := rfl

lemma evaluateAction_arena (qe qte : QuestEval) (d : GameData) (rest : List String)
    (l : RouteLookup) (s : RouteState) :
    evaluateAction qe qte d ("arena" :: rest) l s = EvaluateArena d ("arena" :: rest) l s := rfl

lemma evaluateAction_area (qe qte : QuestEval) (d : GameData) (rest : List String)
    (l : RouteLookup) (s : RouteState) :
    evaluateAction qe qte d ("area" :: rest) l s = EvaluateArea d ("area" :: rest) l s := rfl

lemma evaluateAction_enter (qe qte : QuestEval) (d : GameData) (rest : List String)
    (l : RouteLookup) (s : RouteState) :
    evaluateAction qe qte d ("enter" :: rest) l s = EvaluateEnter d ("enter" :: rest) l s := rfl

lemma evaluateAction_town (qe qte : QuestEval) (d : GameData) (rest : List String)
    (l : RouteLookup) (s : RouteState) :
    evaluateAction qe qte d ("town" :: rest) l s = EvaluateTown d ("town" :: rest) l s := rfl

lemma evaluateAction_waypoint (qe qte : QuestEval) (d : GameData) (rest : List String)
    (l : RouteLookup) (s : RouteState) :
    evaluateAction qe qte d ("waypoint" :: rest) l s
      = EvaluateWaypoint d ("waypoint" :: rest) l s := rfl

lemma evaluateAction_get_waypoint (qe qte : QuestEval) (d : GameData) (rest : List String)
    (l : RouteLookup) (s : RouteState) :
    evaluateAction qe qte d ("get_waypoint" :: rest) l s
      = EvaluateGetWaypoint d ("get_waypoint" :: rest) l s := rfl

lemma evaluateAction_set_portal (qe qte : QuestEval) (d : GameData) (rest : List String)
    (l : RouteLookup) (s : RouteState) :
    evaluateAction qe qte d ("set_portal" :: rest) l s
      = EvaluateSetPortal d ("set_portal" :: rest) l s := rfl

lemma evaluateAction_use_portal (qe qte : QuestEval) (d : GameData) (rest : List String)
    (l : RouteLookup) (s : RouteState) :
    evaluateAction qe qte d ("use_portal" :: rest) l s
      = EvaluateUsePortal d ("use_portal" :: rest) l s := rfl

lemma evaluateAction_quest (qe qte : QuestEval) (d : GameData) (rest : List String)
    (l : RouteLookup) (s : RouteState) :
    evaluateAction qe qte d ("quest" :: rest) l s = qe ("quest" :: rest) l s := rfl

lemma evaluateAction_quest_text (qe qte : QuestEval) (d : GameData) (rest : List String)
    (l : RouteLookup) (s : RouteState) :
    evaluateAction qe qte d ("quest_text" :: rest) l s = qte ("quest_text" :: rest) l s := rfl

lemma evaluateAction_generic (qe qte : QuestEval) (d : GameData) (rest : List String)
    (l : RouteLookup) (s : RouteState) :
    evaluateAction qe qte d ("generic" :: rest) l s = EvaluateGeneric d ("generic" :: rest) l s := rfl

lemma evaluateAction_trial (qe qte : QuestEval) (d : GameData) (rest : List String)
    (l : RouteLookup) (s : RouteState) :
    evaluateAction qe qte d ("trial" :: rest) l s = EvaluateTrial d ("trial" :: rest) l s := rfl

lemma evaluateAction_crafting (qe qte : QuestEval) (d : GameData) (rest : List String)
    (l : RouteLookup) (s : RouteState) :
    evaluateAction qe qte d ("crafting" :: rest) l s
      = EvaluateCrafting d ("crafting" :: rest) l s := rfl

lemma evaluateAction_ascend (qe qte : QuestEval) (d : GameData) (rest : List String)
    (l : RouteLookup) (s : RouteState) :
    evaluateAction qe qte d ("ascend" :: rest) l s = EvaluateAscend d ("ascend" :: rest) l s := rfl

lemma evaluateAction_dir (qe qte : QuestEval) (d : GameData) (rest : List String)
    (l : RouteLookup) (s : RouteState) :
    evaluateAction qe qte d ("dir" :: rest) l s = EvaluateDirection d ("dir" :: rest) l s := rfl

lemma evaluateAction_nil (qe qte : QuestEval) (d : GameData)
    (l : RouteLookup) (s : RouteState) :
    evaluateAction qe qte d [] l s = (.err ERROR_INVALID_FORMAT, s) := rfl

/-! ## Small facts about the table and set models -/

lemma lookup_mem {α : Type} [BEq α] [LawfulBEq α] {β : Type} {k : α} {v : β} :
    ∀ {l : List (α × β)}, List.lookup k l = some v → (k, v) ∈ l := by
  intro l
  induction l with
  | nil => intro h; simp [List.lookup] at h
  | cons p rest ih =>
    intro h
    rw [List.lookup] at h
    by_cases hk : k == p.1
    · simp only [hk, if_pos rfl] at h
      have hkeq : k = p.1 := beq_iff_eq.mp hk
      have hv : p.2 = v := Option.some.inj h
      have : p = (k, v) := by
        cases p
        simp_all
      rw [this]
      exact List.mem_cons_self _ _
    · have hkf : (k == p.1) = false := by
        simpa using hk
      simp only [hkf, Bool.false_eq_true, if_false] at h
      exact List.mem_cons_of_mem _ (ih h)

lemma mem_jsSetAdd {s : List String} {x y : String} :
    y ∈ jsSetAdd s x ↔ y = x ∨ y ∈ s := by
  unfold jsSetAdd
  split
  · constructor
    · exact fun h => Or.inr h
    · rintro (rfl | h) <;> assumption
  · simp [or_comm]

lemma self_mem_jsSetAdd (s : List String) (x : String) : x ∈ jsSetAdd s x :=
  mem_jsSetAdd.mpr (Or.inl rfl)

/-! ## Error atomicity of each evaluator: a diagnostic leaves the state
untouched (every early return in the source precedes the first mutation) -/

lemma EvaluateKill_err (d : GameData) (a : ParsedAction) (l : RouteLookup) (s : RouteState)
    (m : String) (h : (EvaluateKill d a l s).1 = .err m) : (EvaluateKill d a l s).2 = s := by
  revert h; unfold EvaluateKill
  repeat' split
  all_goals intro h
  all_goals simp_all

lemma EvaluateArena_err (d : GameData) (a : ParsedAction) (l : RouteLookup) (s : RouteState)
    (m : String) (h : (EvaluateArena d a l s).1 = .err m) : (EvaluateArena d a l s).2 = s := by
  revert h; unfold EvaluateArena
  repeat' split
  all_goals intro h
  all_goals simp_all

lemma EvaluateArea_err (d : GameData) (a : ParsedAction) (l : RouteLookup) (s : RouteState)
    (m : String) (h : (EvaluateArea d a l s).1 = .err m) : (EvaluateArea d a l s).2 = s := by
  revert h; unfold EvaluateArea
  repeat' split
  all_goals intro h
  all_goals simp_all

lemma EvaluateEnter_err (d : GameData) (a : ParsedAction) (l : RouteLookup) (s : RouteState)
    (m : String) (h : (EvaluateEnter d a l s).1 = .err m) : (EvaluateEnter d a l s).2 = s := by
  revert h; unfold EvaluateEnter
  repeat' split
  all_goals intro h
  all_goals simp_all

lemma EvaluateTown_err (d : GameData) (a : ParsedAction) (l : RouteLookup) (s : RouteState)
    (m : String) (h : (EvaluateTown d a l s).1 = .err m) : (EvaluateTown d a l s).2 = s := by
  revert h; unfold EvaluateTown
  repeat' split
  all_goals intro h
  all_goals simp_all

lemma EvaluateWaypoint_err (d : GameData) (a : ParsedAction) (l : RouteLookup) (s : RouteState)
    (m : String) (h : (EvaluateWaypoint d a l s).1 = .err m) : (EvaluateWaypoint d a l s).2 = s := by
  revert h; unfold EvaluateWaypoint
  repeat' split
  all_goals intro h
  all_goals simp_all

lemma EvaluateGetWaypoint_err (d : GameData) (a : ParsedAction) (l : RouteLookup)
    (s : RouteState) (m : String) (h : (EvaluateGetWaypoint d a l s).1 = .err m) :
    (EvaluateGetWaypoint d a l s).2 = s := by
  revert h; unfold EvaluateGetWaypoint
  repeat' split
  all_goals intro h
  all_goals simp_all

lemma EvaluateSetPortal_err (d : GameData) (a : ParsedAction) (l : RouteLookup)
    (s : RouteState) (m : String) (h : (EvaluateSetPortal d a l s).1 = .err m) :
    (EvaluateSetPortal d a l s).2 = s := by
  revert h; unfold EvaluateSetPortal
  repeat' split
  all_goals intro h
  all_goals simp_all

lemma EvaluateUsePortal_err (d : GameData) (a : ParsedAction) (l : RouteLookup)
    (s : RouteState) (m : String) (h : (EvaluateUsePortal d a l s).1 = .err m) :
    (EvaluateUsePortal d a l s).2 = s := by
  revert h; unfold EvaluateUsePortal
  repeat' split
  all_goals intro h
  all_goals simp_all

lemma EvaluateGeneric_err (d : GameData) (a : ParsedAction) (l : RouteLookup) (s : RouteState)
    (m : String) (h : (EvaluateGeneric d a l s).1 = .err m) : (EvaluateGeneric d a l s).2 = s := by
  revert h; unfold EvaluateGeneric
  repeat' split
  all_goals intro h
  all_goals simp_all

lemma EvaluateTrial_err (d : GameData) (a : ParsedAction) (l : RouteLookup) (s : RouteState)
    (m : String) (h : (EvaluateTrial d a l s).1 = .err m) : (EvaluateTrial d a l s).2 = s := by
  revert h; unfold EvaluateTrial
  repeat' split
  all_goals intro h
  all_goals simp_all

lemma EvaluateCrafting_err (d : GameData) (a : ParsedAction) (l : RouteLookup) (s : RouteState)
    (m : String) (h : (EvaluateCrafting d a l s).1 = .err m) : (EvaluateCrafting d a l s).2 = s := by
  revert h; unfold EvaluateCrafting
  repeat' split
  all_goals intro h
  all_goals simp_all

lemma EvaluateAscend_err (d : GameData) (a : ParsedAction) (l : RouteLookup) (s : RouteState)
    (m : String) (h : (EvaluateAscend d a l s).1 = .err m) : (EvaluateAscend d a l s).2 = s := by
  revert h; unfold EvaluateAscend
  repeat' split
  all_goals intro h
  all_goals simp_all

lemma EvaluateDirection_err (d : GameData) (a : ParsedAction) (l : RouteLookup) (s : RouteState)
    (m : String) (h : (EvaluateDirection d a l s).1 = .err m) :
    (EvaluateDirection d a l s).2 = s := by
  rcases a with _ | ⟨v, _ | ⟨arg, _ | _⟩⟩
  · rfl
  · rfl
  · revert h
    unfold EvaluateDirection
    cases hp : jsParseFloat arg with
    | nan => intro h; simp [hp]
    | inf b => intro h; simp [hp]
    | num parsed =>
      intro h
      simp only [hp] at h ⊢
      cases hd : (if jsRem parsed 360 < 0 then roundDouble (jsRem parsed 360 + 360)
          else JsNumber.num (jsRem parsed 360)) with
      | nan => simp [hd]
      | inf b => simp [hd]
      | num dirq =>
        simp only [hd] at h ⊢
        by_cases hz : jsRem dirq 45 = 0
        · rw [if_neg (by simp [hz])] at h
          simp at h
        · rw [if_pos (by simpa using hz)]
  · rfl

/-! ## Concrete fixtures used to instantiate the universally quantified
theorems: a three-area world keyed by id and a trivial external quest
evaluator satisfying the call contract -/

def questStub : QuestEval := fun _ _ s => (.err ERROR_INVALID_FORMAT, s)

def demoWild : Area := ⟨"1_1_1", 1, "The Twilight Strand", ["1_1_town"], false, true, []⟩

def demoTown : Area := ⟨"1_1_town", 1, "Lioneye's Watch", ["1_1_1"], true, true, []⟩

def demoLab : Area := ⟨"Labyrinth_Airlock", 1, "Aspirant's Plaza", [], false, false, []⟩

def demoData : GameData :=
  ⟨[("1_1_1", demoWild), ("1_1_town", demoTown), ("Labyrinth_Airlock", demoLab)], []⟩

def demoLookup : RouteLookup := ⟨[(1, "1_1_town")], none⟩

/-- Case analysis on the dispatcher: to establish a property of
`evaluateAction`'s result it is enough to establish it for every evaluator
result and for the unknown-verb diagnostic. -/
lemma evaluateAction_cases (qe qte : QuestEval) (d : GameData) (action : ParsedAction)
    (lookup : RouteLookup) (s : RouteState) (P : EvalOutcome × RouteState → Prop)
    (hkill : P (EvaluateKill d action lookup s))
    (harena : P (EvaluateArena d action lookup s))
    (harea : P (EvaluateArea d action lookup s))
    (henter : P (EvaluateEnter d action lookup s))
    (htown : P (EvaluateTown d action lookup s))
    (hwaypoint : P (EvaluateWaypoint d action lookup s))
    (hgetwp : P (EvaluateGetWaypoint d action lookup s))
    (hsetportal : P (EvaluateSetPortal d action lookup s))
    (huseportal : P (EvaluateUsePortal d action lookup s))
    (hquest : P (qe action lookup s))
    (hquesttext : P (qte action lookup s))
    (hgeneric : P (EvaluateGeneric d action lookup s))
    (htrial : P (EvaluateTrial d action lookup s))
    (hcrafting : P (EvaluateCrafting d action lookup s))
    (hascend : P (EvaluateAscend d action lookup s))
    (hdir : P (EvaluateDirection d action lookup s))
    (hother : P (.err ERROR_INVALID_FORMAT, s)) :
    P (evaluateAction qe qte d action lookup s) := by
  unfold evaluateAction
  by_cases h1 : action.head? = some "kill"
  · rwa [if_pos h1]
  rw [if_neg h1]
  by_cases h2 : action.head? = some "arena"
  · rwa [if_pos h2]
  rw [if_neg h2]
  by_cases h3 : action.head? = some "area"
  · rwa [if_pos h3]
  rw [if_neg h3]
  by_cases h4 : action.head? = some "enter"
  · rwa [if_pos h4]
  rw [if_neg h4]
  by_cases h5 : action.head? = some "town"
  · rwa [if_pos h5]
  rw [if_neg h5]
  by_cases h6 : action.head? = some "waypoint"
  · rwa [if_pos h6]
  rw [if_neg h6]
  by_cases h7 : action.head? = some "get_waypoint"
  · rwa [if_pos h7]
  rw [if_neg h7]
  by_cases h8 : action.head? = some "set_portal"
  · rwa [if_pos h8]
  rw [if_neg h8]
  by_cases h9 : action.head? = some "use_portal"
  · rwa [if_pos h9]
  rw [if_neg h9]
  by_cases h10 : action.head? = some "quest"
  · rwa [if_pos h10]
  rw [if_neg h10]
  by_cases h11 : action.head? = some "quest_text"
  · rwa [if_pos h11]
  rw [if_neg h11]
  by_cases h12 : action.head? = some "generic"
  · rwa [if_pos h12]
  rw [if_neg h12]
  by_cases h13 : action.head? = some "trial"
  · rwa [if_pos h13]
  rw [if_neg h13]
  by_cases h14 : action.head? = some "crafting"
  · rwa [if_pos h14]
  rw [if_neg h14]
  by_cases h15 : action.head? = some "ascend"
  · rwa [if_pos h15]
  rw [if_neg h15]
  by_cases h16 : action.head? = some "dir"
  · rwa [if_pos h16]
  rwa [if_neg h16]

/-- C10: error atomicity.  Whenever `evaluateAction` returns a diagnostic
string instead of a success payload, every field of the `RouteState` is
exactly as it was before the call.  The external quest evaluators are
assumed to honour the same contract. -/
theorem evaluateAction_err_atomic (qe qte : QuestEval) (d : GameData)
    (hq : ∀ a l s m, (qe a l s).1 = .err m → (qe a l s).2 = s)
    (hqt : ∀ a l s m, (qte a l s).1 = .err m → (qte a l s).2 = s)
    (action : ParsedAction) (lookup : RouteLookup) (s : RouteState) (m : String)
    (h : (evaluateAction qe qte d action lookup s).1 = .err m) :
    (evaluateAction qe qte d action lookup s).2 = s := by
  revert h
  refine evaluateAction_cases qe qte d action lookup s
    (fun r => r.1 = .err m → r.2 = s) ?_ ?_ ?_ ?_ ?_ ?_ ?_ ?_ ?_ ?_ ?_ ?_ ?_ ?_ ?_ ?_ ?_
  · exact EvaluateKill_err d action lookup s m
  · exact EvaluateArena_err d action lookup s m
  · exact EvaluateArea_err d action lookup s m
  · exact EvaluateEnter_err d action lookup s m
  · exact EvaluateTown_err d action lookup s m
  · exact EvaluateWaypoint_err d action lookup s m
  · exact EvaluateGetWaypoint_err d action lookup s m
  · exact EvaluateSetPortal_err d action lookup s m
  · exact EvaluateUsePortal_err d action lookup s m
  · exact hq action lookup s m
  · exact hqt action lookup s m
  · exact EvaluateGeneric_err d action lookup s m
  · exact EvaluateTrial_err d action lookup s m
  · exact EvaluateCrafting_err d action lookup s m
  · exact EvaluateAscend_err d action lookup s m
  · exact EvaluateDirection_err d action lookup s m
  · exact fun _ => rfl

/-- Witness for C10 at a concrete input: `use_portal` with no portal set
fails and leaves the initial state unchanged. -/
theorem evaluateAction_err_atomic_witness :
    (evaluateAction questStub questStub demoData ["use_portal"] demoLookup
        initializeRouteState).1 = .err "portal must be set"
    ∧ (evaluateAction questStub questStub demoData ["use_portal"] demoLookup
        initializeRouteState).2 = initializeRouteState :=
  ⟨by decide,
    evaluateAction_err_atomic questStub questStub demoData
      (fun _ _ _ _ _ => rfl) (fun _ _ _ _ _ => rfl)
      ["use_portal"] demoLookup initializeRouteState "portal must be set" (by decide)⟩

/-! ## Fault analysis of the evaluators (for C4) -/

lemma EvaluateKill_nofault (d : GameData) (a : ParsedAction) (l : RouteLookup)
    (s : RouteState) : (EvaluateKill d a l s).1 ≠ .fault := by
  unfold EvaluateKill
  repeat' split
  all_goals simp

lemma EvaluateArena_nofault (d : GameData) (a : ParsedAction) (l : RouteLookup)
    (s : RouteState) : (EvaluateArena d a l s).1 ≠ .fault := by
  unfold EvaluateArena
  repeat' split
  all_goals simp

lemma EvaluateArea_nofault (d : GameData) (a : ParsedAction) (l : RouteLookup)
    (s : RouteState) : (EvaluateArea d a l s).1 ≠ .fault := by
  unfold EvaluateArea
  repeat' split
  all_goals simp

lemma EvaluateEnter_nofault (d : GameData) (a : ParsedAction) (l : RouteLookup)
    (s : RouteState) : (EvaluateEnter d a l s).1 ≠ .fault := by
  unfold EvaluateEnter
  repeat' split
  all_goals simp

lemma EvaluateTown_nofault (d : GameData) (a : ParsedAction) (l : RouteLookup)
    (s : RouteState) : (EvaluateTown d a l s).1 ≠ .fault := by
  unfold EvaluateTown
  repeat' split
  all_goals simp

lemma EvaluateWaypoint_nofault (d : GameData) (a : ParsedAction) (l : RouteLookup)
    (s : RouteState) (hc : (lookupAreaOpt d.areas s.currentAreaId).isSome) :
    (EvaluateWaypoint d a l s).1 ≠ .fault := by
  unfold EvaluateWaypoint
  repeat' split
  all_goals simp_all

lemma EvaluateGetWaypoint_nofault (d : GameData) (a : ParsedAction) (l : RouteLookup)
    (s : RouteState) : (EvaluateGetWaypoint d a l s).1 ≠ .fault := by
  unfold EvaluateGetWaypoint
  repeat' split
  all_goals simp

lemma EvaluateSetPortal_nofault (d : GameData) (a : ParsedAction) (l : RouteLookup)
    (s : RouteState) : (EvaluateSetPortal d a l s).1 ≠ .fault := by
  unfold EvaluateSetPortal
  repeat' split
  all_goals simp

lemma EvaluateUsePortal_nofault (d : GameData) (a : ParsedAction) (l : RouteLookup)
    (s : RouteState) (hc : (lookupAreaOpt d.areas s.currentAreaId).isSome) :
    (EvaluateUsePortal d a l s).1 ≠ .fault := by
  unfold EvaluateUsePortal
  repeat' split
  all_goals simp_all

lemma EvaluateGeneric_nofault (d : GameData) (a : ParsedAction) (l : RouteLookup)
    (s : RouteState) : (EvaluateGeneric d a l s).1 ≠ .fault := by
  unfold EvaluateGeneric
  repeat' split
  all_goals simp

lemma EvaluateTrial_nofault (d : GameData) (a : ParsedAction) (l : RouteLookup)
    (s : RouteState) : (EvaluateTrial d a l s).1 ≠ .fault := by
  unfold EvaluateTrial
  repeat' split
  all_goals simp

lemma EvaluateCrafting_nofault (d : GameData) (a : ParsedAction) (l : RouteLookup)
    (s : RouteState) (hc : (lookupAreaOpt d.areas s.currentAreaId).isSome) :
    (EvaluateCrafting d a l s).1 ≠ .fault := by
  unfold EvaluateCrafting
  repeat' split
  all_goals simp_all

lemma EvaluateAscend_nofault (d : GameData) (a : ParsedAction) (l : RouteLookup)
    (s : RouteState) (hc : (lookupAreaOpt d.areas s.currentAreaId).isSome)
    (hlab : (List.lookup "Labyrinth_Airlock" d.areas).isSome) :
    (EvaluateAscend d a l s).1 ≠ .fault := by
  unfold EvaluateAscend
  repeat' split
  all_goals simp_all

lemma EvaluateDirection_nofault (d : GameData) (a : ParsedAction) (l : RouteLookup)
    (s : RouteState) : (EvaluateDirection d a l s).1 ≠ .fault := by
  rcases a with _ | ⟨v, _ | ⟨arg, _ | _⟩⟩
  · simp [EvaluateDirection]
  · simp [EvaluateDirection]
  · unfold EvaluateDirection
    cases hp : jsParseFloat arg with
    | nan => simp [hp]
    | inf b => simp [hp]
    | num parsed =>
      simp only [hp]
      cases hd : (if jsRem parsed 360 < 0 then roundDouble (jsRem parsed 360 + 360)
          else JsNumber.num (jsRem parsed 360)) with
      | nan => simp [hd]
      | inf b => simp [hd]
      | num dirq =>
        simp only [hd]
        by_cases hz : jsRem dirq 45 = 0
        · rw [if_neg (by simp [hz])]
          simp
        · rw [if_pos (by simpa using hz)]
          simp
  · simp [EvaluateDirection]

/-- C4 counterexample: with the portal set, `use_portal` evaluated in a state
whose current area id names no table entry reads a property of `undefined`
and faults; so does `ascend` away from the Labyrinth entry when the table
has no Labyrinth entry to name in its diagnostic. -/
theorem evaluateAction_fault_counterexample :
    (evaluateAction questStub questStub demoData ["use_portal"] demoLookup
        { initializeRouteState with
          currentAreaId := some "nowhere", portalAreaId := some "x" }).1 = .fault
    ∧ (evaluateAction questStub questStub ⟨[("1_1_1", demoWild)], []⟩ ["ascend"] demoLookup
        initializeRouteState).1 = .fault :=
  ⟨by decide, by decide⟩

/-- C4 (amended): for every `ParsedAction` and lookup, and every state whose
`currentAreaId` names an area present in the table, provided the table also
contains the Labyrinth entry area and the external quest evaluators never
fault, `evaluateAction` terminates with either a success payload or a
diagnostic string — never a fault. -/
theorem evaluateAction_nofault (qe qte : QuestEval) (d : GameData)
    (hq : ∀ a l s', (qe a l s').1 ≠ .fault) (hqt : ∀ a l s', (qte a l s').1 ≠ .fault)
    (action : ParsedAction) (lookup : RouteLookup) (s : RouteState)
    (hcur : ∃ c a, s.currentAreaId = some c ∧ List.lookup c d.areas = some a)
    (hlab : (List.lookup "Labyrinth_Airlock" d.areas).isSome) :
    (evaluateAction qe qte d action lookup s).1 ≠ .fault := by
  obtain ⟨c, a, hc, ha⟩ := hcur
  have hsome : (lookupAreaOpt d.areas s.currentAreaId).isSome := by
    simp [lookupAreaOpt, hc, ha]
  refine evaluateAction_cases qe qte d action lookup s (fun r => r.1 ≠ .fault)
    (EvaluateKill_nofault d action lookup s)
    (EvaluateArena_nofault d action lookup s)
    (EvaluateArea_nofault d action lookup s)
    (EvaluateEnter_nofault d action lookup s)
    (EvaluateTown_nofault d action lookup s)
    (EvaluateWaypoint_nofault d action lookup s hsome)
    (EvaluateGetWaypoint_nofault d action lookup s)
    (EvaluateSetPortal_nofault d action lookup s)
    (EvaluateUsePortal_nofault d action lookup s hsome)
    (hq action lookup s)
    (hqt action lookup s)
    (EvaluateGeneric_nofault d action lookup s)
    (EvaluateTrial_nofault d action lookup s)
    (EvaluateCrafting_nofault d action lookup s hsome)
    (EvaluateAscend_nofault d action lookup s hsome hlab)
    (EvaluateDirection_nofault d action lookup s)
    (by simp)

/-- Witness for the amended C4 at a concrete input. -/
theorem evaluateAction_nofault_witness :
    (evaluateAction questStub questStub demoData ["town"] demoLookup
        initializeRouteState).1 ≠ .fault :=
  evaluateAction_nofault questStub questStub demoData
    (fun _ _ _ => by simp [questStub, ERROR_INVALID_FORMAT]) (fun _ _ _ => by simp [questStub, ERROR_INVALID_FORMAT])
    ["town"] demoLookup initializeRouteState
    ⟨"1_1_1", demoWild, rfl, by decide⟩ (by decide)

/-! ## The state invariant (C3): current, last-town and portal areas exist -/

/-- The invariant of C3: `currentAreaId` and `lastTownAreaId` name existing
areas and `portalAreaId`, when set, names an existing area. -/
def StateInv (d : GameData) (s : RouteState) : Prop :=
  (∃ c, s.currentAreaId = some c ∧ (List.lookup c d.areas).isSome)
  ∧ (List.lookup s.lastTownAreaId d.areas).isSome
  ∧ ∀ p, s.portalAreaId = some p → (List.lookup p d.areas).isSome

lemma EvaluateKill_inv (d : GameData) (a : ParsedAction) (l : RouteLookup) (s : RouteState)
    (h : StateInv d s) : StateInv d (EvaluateKill d a l s).2 := by
  unfold EvaluateKill
  repeat' split
  all_goals simpa [StateInv] using h

lemma EvaluateArena_inv (d : GameData) (a : ParsedAction) (l : RouteLookup) (s : RouteState)
    (h : StateInv d s) : StateInv d (EvaluateArena d a l s).2 := by
  unfold EvaluateArena
  repeat' split
  all_goals simpa [StateInv] using h

lemma EvaluateArea_inv (d : GameData) (a : ParsedAction) (l : RouteLookup) (s : RouteState)
    (h : StateInv d s) : StateInv d (EvaluateArea d a l s).2 := by
  unfold EvaluateArea
  repeat' split
  all_goals simpa [StateInv] using h

lemma EvaluateEnter_inv (d : GameData) (a : ParsedAction) (l : RouteLookup) (s : RouteState)
    (hkeyed : ∀ p ∈ d.areas, p.2.id = p.1)
    (h : StateInv d s) : StateInv d (EvaluateEnter d a l s).2 := by
  rcases a with _ | ⟨v, _ | ⟨arg, _ | _⟩⟩
  · exact h
  · exact h
  · unfold EvaluateEnter
    cases ha : List.lookup arg d.areas with
    | none =>
      simp only [ha]
      exact h
    | some area =>
      simp only [ha]
      have hid : area.id = arg := hkeyed (arg, area) (lookup_mem ha)
      have hsome : (List.lookup area.id d.areas).isSome := by
        rw [hid, ha]; rfl
      split
      · simpa [StateInv] using h
      · refine ⟨⟨area.id, rfl, hsome⟩, ?_, ?_⟩
        · split
          · exact hsome
          · exact h.2.1
        · split
          · exact h.2.2
          · exact h.2.2
  · exact h

lemma EvaluateTown_inv (d : GameData) (a : ParsedAction) (l : RouteLookup) (s : RouteState)
    (h : StateInv d s) : StateInv d (EvaluateTown d a l s).2 := by
  rcases a with _ | ⟨v, _ | _⟩
  · exact h
  · exact ⟨⟨s.lastTownAreaId, rfl, h.2.1⟩, h.2.1, h.2.2⟩
  · exact h

lemma EvaluateWaypoint_inv (d : GameData) (a : ParsedAction) (l : RouteLookup) (s : RouteState)
    (hkeyed : ∀ p ∈ d.areas, p.2.id = p.1)
    (h : StateInv d s) : StateInv d (EvaluateWaypoint d a l s).2 := by
  rcases a with _ | ⟨v, _ | ⟨arg, _ | _⟩⟩
  · exact h
  · exact h
  · unfold EvaluateWaypoint
    cases ha : List.lookup arg d.areas with
    | none =>
      simp only [ha]
      exact h
    | some area =>
      simp only [ha]
      have hid : area.id = arg := hkeyed (arg, area) (lookup_mem ha)
      have hsome : (List.lookup area.id d.areas).isSome := by
        rw [hid, ha]; rfl
      split
      · simpa [StateInv] using h
      · split
        · simpa [StateInv] using h
        · split
          · simpa [StateInv] using h
          · exact ⟨⟨area.id, rfl, hsome⟩, h.2.1, h.2.2⟩
  · exact h

lemma EvaluateGetWaypoint_inv (d : GameData) (a : ParsedAction) (l : RouteLookup)
    (s : RouteState) (h : StateInv d s) : StateInv d (EvaluateGetWaypoint d a l s).2 := by
  unfold EvaluateGetWaypoint
  repeat' split
  all_goals simpa [StateInv] using h

lemma EvaluateSetPortal_inv (d : GameData) (a : ParsedAction) (l : RouteLookup)
    (s : RouteState) (h : StateInv d s) : StateInv d (EvaluateSetPortal d a l s).2 := by
  rcases a with _ | ⟨v, _ | _⟩
  · exact h
  · show StateInv d { s with portalAreaId := s.currentAreaId }
    obtain ⟨c, hc, hcs⟩ := h.1
    refine ⟨h.1, h.2.1, ?_⟩
    intro p hp
    have hp' : s.currentAreaId = some p := hp
    rw [hc] at hp'
    cases hp'
    exact hcs
  · exact h

lemma EvaluateUsePortal_inv (d : GameData) (a : ParsedAction) (l : RouteLookup)
    (s : RouteState)
    (htx : ∀ p ∈ d.areas, (List.lookup p.2.act l.towns).isSome)
    (hti : ∀ q ∈ l.towns, (List.lookup q.2 d.areas).isSome)
    (h : StateInv d s) : StateInv d (EvaluateUsePortal d a l s).2 := by
  rcases a with _ | ⟨v, _ | _⟩
  · exact h
  · unfold EvaluateUsePortal
    by_cases hf : jsFalsyStr s.portalAreaId = true
    · rw [if_pos hf]
      exact h
    rw [if_neg hf]
    cases hc : lookupAreaOpt d.areas s.currentAreaId with
    | none =>
      simp only [hc]
      exact h
    | some currentArea =>
      simp only [hc]
      obtain ⟨c, hcur, hcs⟩ := h.1
      have hlk : List.lookup c d.areas = some currentArea := by
        have h₀ : lookupAreaOpt d.areas s.currentAreaId = List.lookup c d.areas := by
          simp [lookupAreaOpt, hcur]
        rw [← h₀, hc]
      have hmem : (c, currentArea) ∈ d.areas := lookup_mem hlk
      by_cases hpid : some currentArea.id = s.portalAreaId
      · rw [if_pos hpid]
        obtain ⟨t, ht⟩ := Option.isSome_iff_exists.mp (htx (c, currentArea) hmem)
        have htm : (currentArea.act, t) ∈ l.towns := lookup_mem ht
        refine ⟨⟨t, ?_, hti (currentArea.act, t) htm⟩, h.2.1, ?_⟩
        · show List.lookup currentArea.act l.towns = some t
          exact ht
        · intro p hp
          have hp' : s.currentAreaId = some p := hp
          rw [hcur] at hp'
          cases hp'
          exact hcs
      · rw [if_neg hpid]
        by_cases htw : currentArea.is_town_area = true
        · rw [if_neg (not_not_intro htw)]
          cases hport : s.portalAreaId with
          | none =>
            exfalso
            exact hf (by simp [jsFalsyStr, hport])
          | some p =>
            refine ⟨⟨p, rfl, h.2.2 p hport⟩, h.2.1, ?_⟩
            intro p' hp'
            have hn : (none : Option String) = some p' := hp'
            cases hn
        · rw [if_pos htw]
          exact h
  · exact h

lemma EvaluateGeneric_inv (d : GameData) (a : ParsedAction) (l : RouteLookup)
    (s : RouteState) (h : StateInv d s) : StateInv d (EvaluateGeneric d a l s).2 := by
  unfold EvaluateGeneric
  repeat' split
  all_goals simpa [StateInv] using h

lemma EvaluateTrial_inv (d : GameData) (a : ParsedAction) (l : RouteLookup)
    (s : RouteState) (h : StateInv d s) : StateInv d (EvaluateTrial d a l s).2 := by
  unfold EvaluateTrial
  repeat' split
  all_goals simpa [StateInv] using h

lemma EvaluateCrafting_inv (d : GameData) (a : ParsedAction) (l : RouteLookup)
    (s : RouteState) (h : StateInv d s) : StateInv d (EvaluateCrafting d a l s).2 := by
  unfold EvaluateCrafting
  repeat' split
  all_goals simpa [StateInv] using h

lemma EvaluateAscend_inv (d : GameData) (a : ParsedAction) (l : RouteLookup)
    (s : RouteState) (h : StateInv d s) : StateInv d (EvaluateAscend d a l s).2 := by
  rcases a with _ | ⟨v, _ | _⟩
  · exact h
  · unfold EvaluateAscend
    cases hc : lookupAreaOpt d.areas s.currentAreaId with
    | none =>
      simp only [hc]
      exact h
    | some currentArea =>
      simp only [hc]
      split
      · split
        · exact h
        · exact h
      · exact ⟨⟨s.lastTownAreaId, rfl, h.2.1⟩, h.2.1, h.2.2⟩
  · exact h

lemma EvaluateDirection_state (d : GameData) (a : ParsedAction) (l : RouteLookup)
    (s : RouteState) : (EvaluateDirection d a l s).2 = s := by
  rcases a with _ | ⟨v, _ | ⟨arg, _ | _⟩⟩
  · rfl
  · rfl
  · unfold EvaluateDirection
    cases hp : jsParseFloat arg with
    | nan => simp only [hp]
    | inf b => simp only [hp]
    | num parsed =>
      simp only [hp]
      cases hd : (if jsRem parsed 360 < 0 then roundDouble (jsRem parsed 360 + 360)
          else JsNumber.num (jsRem parsed 360)) with
      | nan => simp [hd]
      | inf b => simp [hd]
      | num dirq =>
        simp only [hd]
        rw [apply_ite Prod.snd]
        simp
  · rfl

lemma EvaluateDirection_inv (d : GameData) (a : ParsedAction) (l : RouteLookup)
    (s : RouteState) (h : StateInv d s) : StateInv d (EvaluateDirection d a l s).2 := by
  rw [EvaluateDirection_state]
  exact h

/-- C3: starting from `initializeRouteState` (assuming its seeded starting
area and starting town exist in the table, the table is keyed by area id,
every area's act has a town entry in the lookup, and every town entry names
an existing area), every evaluator invocation preserves the invariant that
`currentAreaId` and `lastTownAreaId` name existing areas and `portalAreaId`,
when set, names an existing area.  The external quest evaluators are assumed
to preserve the invariant as well. -/
theorem routeState_invariant (qe qte : QuestEval) (d : GameData) (lookup : RouteLookup)
    (hkeyed : ∀ p ∈ d.areas, p.2.id = p.1)
    (htx : ∀ p ∈ d.areas, (List.lookup p.2.act lookup.towns).isSome)
    (hti : ∀ q ∈ lookup.towns, (List.lookup q.2 d.areas).isSome)
    (hq : ∀ a s', StateInv d s' → StateInv d (qe a lookup s').2)
    (hqt : ∀ a s', StateInv d s' → StateInv d (qte a lookup s').2) :
    ((List.lookup "1_1_1" d.areas).isSome → (List.lookup "1_1_town" d.areas).isSome →
      StateInv d initializeRouteState)
    ∧ ∀ action s, StateInv d s →
        StateInv d (evaluateAction qe qte d action lookup s).2 := by
  constructor
  · intro h1 h2
    exact ⟨⟨"1_1_1", rfl, h1⟩, h2, by simp [initializeRouteState]⟩
  · intro action s hs
    exact evaluateAction_cases qe qte d action lookup s (fun r => StateInv d r.2)
      (EvaluateKill_inv d action lookup s hs)
      (EvaluateArena_inv d action lookup s hs)
      (EvaluateArea_inv d action lookup s hs)
      (EvaluateEnter_inv d action lookup s hkeyed hs)
      (EvaluateTown_inv d action lookup s hs)
      (EvaluateWaypoint_inv d action lookup s hkeyed hs)
      (EvaluateGetWaypoint_inv d action lookup s hs)
      (EvaluateSetPortal_inv d action lookup s hs)
      (EvaluateUsePortal_inv d action lookup s htx hti hs)
      (hq action s hs)
      (hqt action s hs)
      (EvaluateGeneric_inv d action lookup s hs)
      (EvaluateTrial_inv d action lookup s hs)
      (EvaluateCrafting_inv d action lookup s hs)
      (EvaluateAscend_inv d action lookup s hs)
      (EvaluateDirection_inv d action lookup s hs)
      hs

/-- Witness for C3 at a concrete input: the invariant holds after
`set_portal` is evaluated from the initial state on the demo world. -/
theorem routeState_invariant_witness :
    StateInv demoData
      (evaluateAction questStub questStub demoData ["set_portal"] demoLookup
        initializeRouteState).2 :=
  (routeState_invariant questStub questStub demoData demoLookup
      (by decide) (by decide) (by decide) (fun _ _ h => h) (fun _ _ h => h)).2
    ["set_portal"] initializeRouteState
    ((routeState_invariant questStub questStub demoData demoLookup
        (by decide) (by decide) (by decide) (fun _ _ h => h) (fun _ _ h => h)).1
      (by decide) (by decide))

/-- C1: an `enter` naming an existing area connected to the current area
succeeds: `currentAreaId` becomes the target's id and the returned `Enter`
action carries that id; a town target becomes the last town, and a town
target with a waypoint is added to the implicit waypoint set. -/
theorem enter_connected_succeeds (qe qte : QuestEval) (d : GameData) (lookup : RouteLookup)
    (s : RouteState) (tid c : String) (area : Area)
    (harea : List.lookup tid d.areas = some area)
    (hcur : s.currentAreaId = some c)
    (hconn : c ∈ area.connection_ids) :
    ∃ s', evaluateAction qe qte d ["enter", tid] lookup s
        = (.ok ⟨some (.enter area.id), []⟩, s')
      ∧ s'.currentAreaId = some area.id
      ∧ (area.is_town_area = true → s'.lastTownAreaId = area.id)
      ∧ (area.is_town_area = true → area.has_waypoint = true →
          area.id ∈ s'.implicitWaypoints) := by
  have hany : area.connection_ids.any (fun x => decide (some x = s.currentAreaId)) = true := by
    refine List.any_eq_true.mpr ⟨c, hconn, ?_⟩
    simp [hcur]
  rw [evaluateAction_enter, EvaluateEnter]
  simp only [harea, hany, not_true, if_false]
  refine ⟨_, rfl, by simp, ?_, ?_⟩
  · intro ht
    simp [ht]
  · intro ht hw
    simp [ht, hw, jsSetAdd]
    split <;> simp_all

/-- Witness for C1 at a concrete input: entering the connected town from the
starting area. -/
theorem enter_connected_succeeds_witness :
    ∃ s', evaluateAction questStub questStub demoData ["enter", "1_1_town"] demoLookup
        initializeRouteState = (.ok ⟨some (.enter demoTown.id), []⟩, s')
      ∧ s'.currentAreaId = some demoTown.id
      ∧ (demoTown.is_town_area = true → s'.lastTownAreaId = demoTown.id)
      ∧ (demoTown.is_town_area = true → demoTown.has_waypoint = true →
          demoTown.id ∈ s'.implicitWaypoints) :=
  enter_connected_succeeds questStub questStub demoData demoLookup initializeRouteState
    "1_1_town" "1_1_1" demoTown (by decide) rfl (by decide)

/-- C5: a `waypoint` action naming an existing area that is in neither the
implicit nor the explicit waypoint set fails with "missing target waypoint"
and leaves every state field unchanged. -/
theorem waypoint_unknown_target_fails (qe qte : QuestEval) (d : GameData)
    (lookup : RouteLookup) (s : RouteState) (tid : String) (area : Area)
    (harea : List.lookup tid d.areas = some area)
    (h1 : area.id ∉ s.implicitWaypoints) (h2 : area.id ∉ s.explicitWaypoints) :
    evaluateAction qe qte d ["waypoint", tid] lookup s
      = (.err "missing target waypoint", s) := by
  rw [evaluateAction_waypoint, EvaluateWaypoint]
  simp [harea, h1, h2]

/-- Witness for C5 at a concrete input: travelling to a never-unlocked
waypoint from the initial state. -/
theorem waypoint_unknown_target_fails_witness :
    evaluateAction questStub questStub demoData ["waypoint", "1_1_town"] demoLookup
        initializeRouteState = (.err "missing target waypoint", initializeRouteState) :=
  waypoint_unknown_target_fails questStub questStub demoData demoLookup
    initializeRouteState "1_1_town" demoTown (by decide) (by decide) (by decide)

/-- C8: `get_waypoint`'s already-acquired check tests only implicit waypoint
knowledge: from a state whose current area exists, has a waypoint, and is
not implicitly known, evaluating `get_waypoint` twice succeeds both times,
each call leaving the current area in the explicit waypoint set. -/
theorem get_waypoint_twice_succeeds (qe qte : QuestEval) (d : GameData)
    (lookup : RouteLookup) (s : RouteState) (cid : String) (a : Area)
    (hcur : s.currentAreaId = some cid)
    (harea : List.lookup cid d.areas = some a)
    (hwp : a.has_waypoint = true)
    (hni : a.id ∉ s.implicitWaypoints) :
    ∃ s₁ s₂,
      evaluateAction qe qte d ["get_waypoint"] lookup s = (.ok ⟨some .get_waypoint, []⟩, s₁)
      ∧ a.id ∈ s₁.explicitWaypoints
      ∧ evaluateAction qe qte d ["get_waypoint"] lookup s₁ = (.ok ⟨some .get_waypoint, []⟩, s₂)
      ∧ a.id ∈ s₂.explicitWaypoints := by
  have hl : lookupAreaOpt d.areas s.currentAreaId = some a := by
    simp [lookupAreaOpt, hcur, harea]
  rw [evaluateAction_get_waypoint, EvaluateGetWaypoint]
  simp only [hl, hwp, Bool.not_true, hni, if_false, if_neg hni]
  refine ⟨{ s with explicitWaypoints := jsSetAdd s.explicitWaypoints a.id },
    { s with explicitWaypoints := jsSetAdd (jsSetAdd s.explicitWaypoints a.id) a.id },
    ?_, self_mem_jsSetAdd _ _, ?_, self_mem_jsSetAdd _ _⟩
  · simp
  · rw [evaluateAction_get_waypoint, EvaluateGetWaypoint]
    have hl2 : lookupAreaOpt d.areas
        ({ s with explicitWaypoints := jsSetAdd s.explicitWaypoints a.id } :
          RouteState).currentAreaId = some a := hl
    simp only [hl2, hwp, hni, Bool.not_true, if_false, if_neg hni]
    simp

/-- Witness for C8 at a concrete input: double `get_waypoint` at the starting
area. -/
theorem get_waypoint_twice_succeeds_witness :
    ∃ s₁ s₂,
      evaluateAction questStub questStub demoData ["get_waypoint"] demoLookup
          initializeRouteState = (.ok ⟨some .get_waypoint, []⟩, s₁)
      ∧ demoWild.id ∈ s₁.explicitWaypoints
      ∧ evaluateAction questStub questStub demoData ["get_waypoint"] demoLookup s₁
          = (.ok ⟨some .get_waypoint, []⟩, s₂)
      ∧ demoWild.id ∈ s₂.explicitWaypoints :=
  get_waypoint_twice_succeeds questStub questStub demoData demoLookup
    initializeRouteState "1_1_1" demoWild rfl (by decide) (by decide) (by decide)

/-- C2: portal round trip.  From a non-town area `A` with no anchor set,
`set_portal` then `use_portal` moves to the town of `A`'s act with the anchor
still `A`; a second `use_portal` from that town moves back to `A` and clears
the anchor; a third `use_portal` at `A` fails with "portal must be set". -/
theorem use_portal_round_trip (qe qte : QuestEval) (d : GameData) (lookup : RouteLookup)
    (s : RouteState) (A T : String) (a t : Area)
    (hA : List.lookup A d.areas = some a) (haid : a.id = A)
    (hatown : a.is_town_area = false) (hAne : A ≠ "")
    (htowns : List.lookup a.act lookup.towns = some T)
    (hT : List.lookup T d.areas = some t) (htid : t.id = T)
    (httown : t.is_town_area = true) (hTA : T ≠ A)
    (hcur : s.currentAreaId = some A) (hport : s.portalAreaId = none) :
    ∃ s₁ s₂ s₃,
      evaluateAction qe qte d ["set_portal"] lookup s = (.ok ⟨some .set_portal, []⟩, s₁)
      ∧ s₁.portalAreaId = some A ∧ s₁.currentAreaId = some A
      ∧ evaluateAction qe qte d ["use_portal"] lookup s₁ = (.ok ⟨some .use_portal, []⟩, s₂)
      ∧ s₂.currentAreaId = some T ∧ s₂.portalAreaId = some A
      ∧ evaluateAction qe qte d ["use_portal"] lookup s₂ = (.ok ⟨some .use_portal, []⟩, s₃)
      ∧ s₃.currentAreaId = some A ∧ s₃.portalAreaId = none
      ∧ evaluateAction qe qte d ["use_portal"] lookup s₃
          = (.err "portal must be set", s₃) := by
  refine ⟨{ s with portalAreaId := some A },
    { s with portalAreaId := some A, currentAreaId := some T },
    { s with currentAreaId := some A, portalAreaId := none },
    ?_, rfl, hcur, ?_, rfl, rfl, ?_, rfl, rfl, ?_⟩
  · rw [evaluateAction_set_portal, EvaluateSetPortal]
    simp [hcur]
  · rw [evaluateAction_use_portal, EvaluateUsePortal]
    have hfalsy :
        ¬ jsFalsyStr ({ s with portalAreaId := some A } : RouteState).portalAreaId = true := by
      simp [jsFalsyStr, hAne]
    rw [if_neg hfalsy]
    have hlk : lookupAreaOpt d.areas
        ({ s with portalAreaId := some A } : RouteState).currentAreaId = some a := by
      simp [lookupAreaOpt, hcur, hA]
    simp only [hlk]
    rw [if_pos (by simp [haid])]
    simp [hcur, htowns]
  · rw [evaluateAction_use_portal, EvaluateUsePortal]
    have hfalsy :
        ¬ jsFalsyStr ({ s with portalAreaId := some A, currentAreaId := some T } :
            RouteState).portalAreaId = true := by
      simp [jsFalsyStr, hAne]
    rw [if_neg hfalsy]
    have hlk : lookupAreaOpt d.areas
        ({ s with portalAreaId := some A, currentAreaId := some T } :
          RouteState).currentAreaId = some t := by
      simp [lookupAreaOpt, hT]
    simp only [hlk]
    rw [if_neg (by simp [htid, hTA])]
    rw [if_neg (not_not_intro httown)]
  · rw [evaluateAction_use_portal, EvaluateUsePortal]
    rw [if_pos (by simp [jsFalsyStr])]

/-- Witness for C2 at a concrete input: the round trip between the starting
area and its act's town on the demo world. -/
theorem use_portal_round_trip_witness :
    ∃ s₁ s₂ s₃,
      evaluateAction questStub questStub demoData ["set_portal"] demoLookup
          initializeRouteState = (.ok ⟨some .set_portal, []⟩, s₁)
      ∧ s₁.portalAreaId = some "1_1_1" ∧ s₁.currentAreaId = some "1_1_1"
      ∧ evaluateAction questStub questStub demoData ["use_portal"] demoLookup s₁
          = (.ok ⟨some .use_portal, []⟩, s₂)
      ∧ s₂.currentAreaId = some "1_1_town" ∧ s₂.portalAreaId = some "1_1_1"
      ∧ evaluateAction questStub questStub demoData ["use_portal"] demoLookup s₂
          = (.ok ⟨some .use_portal, []⟩, s₃)
      ∧ s₃.currentAreaId = some "1_1_1" ∧ s₃.portalAreaId = none
      ∧ evaluateAction questStub questStub demoData ["use_portal"] demoLookup s₃
          = (.err "portal must be set", s₃) :=
  use_portal_round_trip questStub questStub demoData demoLookup initializeRouteState
    "1_1_1" "1_1_town" demoWild demoTown (by decide) (by decide) (by decide) (by decide)
    (by decide) (by decide) (by decide) (by decide) (by decide) rfl rfl

/-! ## Arithmetic facts about the JS remainder (for C6) -/

lemma jsRem_bounds (q b : ℚ) (hb : 0 < b) : -b < jsRem q b ∧ jsRem q b < b := by
  unfold jsRem ratTrunc
  have hbne : b ≠ 0 := ne_of_gt hb
  have hq : b * (q / b) = q := mul_div_cancel₀ q hbne
  split
  · have h1 := Int.floor_le (q / b)
    have h2 := Int.lt_floor_add_one (q / b)
    constructor <;> nlinarith [h1, h2]
  · have h1 := Int.le_ceil (q / b)
    have h2 := Int.ceil_lt_add_one (q / b)
    constructor <;> nlinarith [h1, h2]

lemma jsRem_eq_zero_iff (x b : ℚ) (hb : 0 < b) : jsRem x b = 0 ↔ ∃ k : ℤ, x = b * k := by
  constructor
  · intro h
    refine ⟨ratTrunc (x / b), ?_⟩
    unfold jsRem at h
    linarith
  · rintro ⟨k, rfl⟩
    unfold jsRem ratTrunc
    have hdiv : (b * (k : ℚ)) / b = (k : ℚ) := mul_div_cancel_left₀ _ (ne_of_gt hb)
    rw [hdiv]
    split
    · rw [Int.floor_intCast]
      ring
    · rw [Int.ceil_intCast]
      ring

/-- The normalization of a parsed angle performed by the `dir` evaluator:
JS remainder modulo 360, plus a rounded double addition of 360 when
negative (the branch the source writes as `dir += 360`). -/
def jsNormalize (q : ℚ) : JsNumber :=
  if jsRem q 360 < 0 then roundDouble (jsRem q 360 + 360) else .num (jsRem q 360)

lemma jsRem_self_of_neg (v b : ℚ) (hb : 0 < b) (h1 : -b < v) (h2 : v < 0) :
    jsRem v b = v := by
  unfold jsRem
  rw [show ratTrunc (v / b) = 0 from by
    rw [ratTrunc, if_neg (not_le.mpr (div_neg_of_neg_of_pos h2 hb))]
    refine Int.ceil_eq_iff.mpr ⟨?_, ?_⟩
    · push_cast
      rw [show (0:ℚ) - 1 = -1 from by ring, lt_div_iff hb]
      linarith
    · push_cast
      exact le_of_lt (div_neg_of_neg_of_pos h2 hb)]
  push_cast
  ring

lemma jsRem_self_of_lt (v b : ℚ) (hb : 0 < b) (h1 : 0 ≤ v) (h2 : v < b) :
    jsRem v b = v := by
  unfold jsRem
  rw [show ratTrunc (v / b) = 0 from by
    rw [ratTrunc, if_pos (div_nonneg h1 hb.le)]
    refine Int.floor_eq_iff.mpr ⟨?_, ?_⟩
    · push_cast
      exact div_nonneg h1 hb.le
    · push_cast
      rw [div_lt_iff hb]
      linarith]
  push_cast
  ring

lemma roundHalfEven_bounds (x : ℚ) :
    x - 1/2 ≤ (roundHalfEven x : ℚ) ∧ (roundHalfEven x : ℚ) ≤ x + 1/2 := by
  have h1 := Int.floor_le x
  have h2 := Int.lt_floor_add_one x
  unfold roundHalfEven
  split
  · rename_i h
    exact ⟨by linarith, by linarith⟩
  · rename_i h
    push_neg at h
    split
    · rename_i h'
      have hc : ((⌊x⌋ + 1 : ℤ) : ℚ) = (⌊x⌋ : ℚ) + 1 := by push_cast; ring
      exact ⟨by linarith, by linarith⟩
    · rename_i h'
      push_neg at h'
      split
      · exact ⟨by linarith, by linarith⟩
      · have hc : ((⌊x⌋ + 1 : ℤ) : ℚ) = (⌊x⌋ : ℚ) + 1 := by push_cast; ring
        exact ⟨by linarith, by linarith⟩

lemma roundHalfEven_nonneg (x : ℚ) (h : 0 ≤ x) : 0 ≤ roundHalfEven x := by
  have h0 : 0 ≤ ⌊x⌋ := Int.floor_nonneg.mpr h
  unfold roundHalfEven
  split
  · exact h0
  · split
    · omega
    · split
      · exact h0
      · omega

lemma roundHalfEven_intCast (n : ℤ) : roundHalfEven (n : ℚ) = n := by
  unfold roundHalfEven
  rw [Int.floor_intCast, if_pos (by norm_num)]

lemma roundHalfEven_eq_add_one (x : ℚ) (f : ℤ) (hf : ⌊x⌋ = f) (h : 1/2 < x - (f : ℚ)) :
    roundHalfEven x = f + 1 := by
  unfold roundHalfEven
  rw [hf, if_neg (not_lt.mpr h.le), if_pos h]

lemma log2_eq_of_bounds (x : ℚ) (e : ℤ) (h0 : 0 < x)
    (h1 : (2:ℚ) ^ e ≤ x) (h2 : x < (2:ℚ) ^ (e + 1)) : Int.log 2 x = e := by
  have ha : ((2:ℕ):ℚ) ^ Int.log 2 x ≤ x := Int.zpow_log_le_self (by norm_num) h0
  have hb : x < ((2:ℕ):ℚ) ^ (Int.log 2 x + 1) := Int.lt_zpow_succ_log_self (by norm_num) x
  push_cast at ha hb
  by_contra hne
  rcases lt_or_gt_of_ne hne with hlt | hgt
  · have hh : (2:ℚ) ^ (Int.log 2 x + 1) ≤ (2:ℚ) ^ e :=
      zpow_le_zpow_right₀ (by norm_num) (by omega)
    linarith
  · have hh : (2:ℚ) ^ (e + 1) ≤ (2:ℚ) ^ Int.log 2 x :=
      zpow_le_zpow_right₀ (by norm_num) (by omega)
    linarith

lemma roundDouble_eval (q : ℚ) (e p n : ℤ) (h0 : q ≠ 0)
    (hlog : Int.log 2 |q| = e) (hp : max (e - 52) (-1074 : ℤ) = p)
    (hn : roundHalfEven (|q| / 2 ^ p) = n)
    (hsmall : (n : ℚ) * 2 ^ p < (2:ℚ) ^ (1024 : ℤ)) :
    roundDouble q = .num (if q < 0 then -((n : ℚ) * 2 ^ p) else (n : ℚ) * 2 ^ p) := by
  unfold roundDouble
  rw [if_neg h0]
  dsimp only
  rw [hlog, hp, hn, if_neg (not_le.mpr hsmall)]

lemma roundDouble_exact (q : ℚ) (e m : ℤ) (h0 : q ≠ 0)
    (h1 : (2:ℚ) ^ e ≤ |q|) (h2 : |q| < (2:ℚ) ^ (e + 1)) (he0 : 0 ≤ e) (he : e ≤ 52)
    (hm : |q| = (m : ℚ)) :
    roundDouble q = .num q := by
  have habs : 0 < |q| := abs_pos.mpr h0
  have hlog : Int.log 2 |q| = e := log2_eq_of_bounds _ e habs h1 h2
  have hpmax : max (e - 52) (-1074 : ℤ) = e - 52 := max_eq_left (by omega)
  have hpow : ((2:ℚ) ^ (52 - e).toNat) = (2:ℚ) ^ ((52 : ℤ) - e) := by
    rw [← zpow_natCast]
    congr 1
    omega
  have h2ne : ((2:ℚ) ^ (e - 52 : ℤ)) ≠ 0 := by positivity
  have hgrid : |q| / 2 ^ (e - 52 : ℤ) = ((m * 2 ^ (52 - e).toNat : ℤ) : ℚ) := by
    rw [hm, div_eq_iff h2ne]
    push_cast
    rw [hpow, mul_assoc, ← zpow_add₀ (by norm_num : (2:ℚ) ≠ 0)]
    rw [show (52 : ℤ) - e + (e - 52) = 0 from by ring, zpow_zero, mul_one]
  have hn : roundHalfEven (|q| / 2 ^ (e - 52 : ℤ)) = m * 2 ^ (52 - e).toNat := by
    rw [hgrid, roundHalfEven_intCast]
  have hr : ((m * 2 ^ (52 - e).toNat : ℤ) : ℚ) * 2 ^ (e - 52 : ℤ) = |q| := by
    rw [← hgrid, div_mul_cancel₀ _ h2ne]
  have hsmall : ((m * 2 ^ (52 - e).toNat : ℤ) : ℚ) * 2 ^ (e - 52 : ℤ) < (2:ℚ) ^ (1024 : ℤ) := by
    rw [hr]
    calc |q| < (2:ℚ) ^ (e + 1) := h2
      _ ≤ (2:ℚ) ^ (1024 : ℤ) := zpow_le_zpow_right₀ (by norm_num) (by omega)
  rw [roundDouble_eval q e (e - 52) (m * 2 ^ (52 - e).toNat) h0 hlog hpmax hn hsmall, hr]
  by_cases hq : q < 0
  · rw [if_pos hq, abs_of_neg hq, neg_neg]
  · rw [if_neg hq, abs_of_nonneg (not_lt.mp hq)]

lemma roundDouble_mem_Icc (x : ℚ) (h0 : 0 < x) (h1 : x < 360) :
    ∃ r : ℚ, roundDouble x = .num r ∧ 0 ≤ r ∧ r ≤ 360 := by
  have hx0 : x ≠ 0 := ne_of_gt h0
  have habs : |x| = x := abs_of_pos h0
  have he2 : ((2:ℕ):ℚ) ^ Int.log 2 x ≤ x := Int.zpow_log_le_self (by norm_num) h0
  push_cast at he2
  have he8 : Int.log 2 x ≤ 8 := by
    by_contra hc
    push_neg at hc
    have h9 : (2:ℚ) ^ (9 : ℤ) ≤ (2:ℚ) ^ Int.log 2 x :=
      zpow_le_zpow_right₀ (by norm_num) (by omega)
    have h512 : ((2:ℚ) ^ (9 : ℤ)) = 512 := by norm_num
    linarith
  obtain ⟨p, hP⟩ : ∃ p : ℤ, max (Int.log 2 x - 52) (-1074 : ℤ) = p := ⟨_, rfl⟩
  have hp3 : p ≤ 3 := hP ▸ max_le (by omega) (by norm_num)
  have h2p : (0:ℚ) < 2 ^ p := zpow_pos (by norm_num) p
  have hpow : ((2:ℚ) ^ (3 - p).toNat) = (2:ℚ) ^ ((3 : ℤ) - p) := by
    rw [← zpow_natCast]
    congr 1
    omega
  have hm : ((45 * 2 ^ (3 - p).toNat : ℤ) : ℚ) * 2 ^ p = 360 := by
    push_cast
    rw [hpow, mul_assoc, ← zpow_add₀ (by norm_num : (2:ℚ) ≠ 0)]
    rw [show (3 : ℤ) - p + p = 3 from by ring]
    norm_num
  have hxp : x / 2 ^ p < ((45 * 2 ^ (3 - p).toNat : ℤ) : ℚ) := by
    rw [div_lt_iff h2p, hm]
    exact h1
  have hb := (roundHalfEven_bounds (x / 2 ^ p)).2
  have hlt : (roundHalfEven (x / 2 ^ p) : ℚ) < ((45 * 2 ^ (3 - p).toNat : ℤ) : ℚ) + 1 := by
    linarith
  have hle : roundHalfEven (x / 2 ^ p) ≤ 45 * 2 ^ (3 - p).toNat :=
    Int.lt_add_one_iff.mp (by exact_mod_cast hlt)
  have hub : (roundHalfEven (x / 2 ^ p) : ℚ) * 2 ^ p ≤ 360 := by
    calc (roundHalfEven (x / 2 ^ p) : ℚ) * 2 ^ p
        ≤ ((45 * 2 ^ (3 - p).toNat : ℤ) : ℚ) * 2 ^ p :=
          mul_le_mul_of_nonneg_right (by exact_mod_cast hle) h2p.le
      _ = 360 := hm
  have hlb : (0:ℚ) ≤ (roundHalfEven (x / 2 ^ p) : ℚ) * 2 ^ p := by
    have hnn : 0 ≤ roundHalfEven (x / 2 ^ p) :=
      roundHalfEven_nonneg _ (div_nonneg h0.le h2p.le)
    exact mul_nonneg (by exact_mod_cast hnn) h2p.le
  have hnx : roundHalfEven (|x| / 2 ^ p) = roundHalfEven (x / 2 ^ p) := by rw [habs]
  have heval := roundDouble_eval x (Int.log 2 x) p (roundHalfEven (x / 2 ^ p)) hx0
    (congrArg (Int.log 2) habs) hP hnx (lt_of_le_of_lt hub (by norm_num))
  rw [heval, if_neg (not_lt.mpr h0.le)]
  exact ⟨_, rfl, hlb, hub⟩

lemma jsNormalize_num (q : ℚ) :
    ∃ dirq : ℚ, jsNormalize q = .num dirq ∧ 0 ≤ dirq ∧ dirq ≤ 360 := by
  obtain ⟨hb1, hb2⟩ := jsRem_bounds q 360 (by norm_num)
  unfold jsNormalize
  split
  · rename_i hneg
    exact roundDouble_mem_Icc _ (by linarith) (by linarith)
  · rename_i hpos
    exact ⟨jsRem q 360, rfl, not_lt.mp hpos, by linarith⟩

lemma EvaluateDirection_nan (d : GameData) (l : RouteLookup) (s : RouteState)
    (arg : String) (hp : jsParseFloat arg = .nan) :
    EvaluateDirection d ["dir", arg] l s = (.err "dir value is not a number", s) := by
  simp only [EvaluateDirection, hp]

lemma EvaluateDirection_infty (d : GameData) (l : RouteLookup) (s : RouteState)
    (arg : String) (b : Bool) (hp : jsParseFloat arg = .inf b) :
    EvaluateDirection d ["dir", arg] l s
      = (.err "dir value must be in intervals of 45", s) := by
  simp only [EvaluateDirection, hp]

lemma EvaluateDirection_num_ok (d : GameData) (l : RouteLookup) (s : RouteState)
    (arg : String) (v dirv : ℚ) (k : ℤ)
    (hp : jsParseFloat arg = .num v)
    (hdir : jsNormalize v = .num dirv)
    (hz : jsRem dirv 45 = 0)
    (hk : ⌊dirv / 45⌋ = k) :
    EvaluateDirection d ["dir", arg] l s = (.ok ⟨some (.dir k), []⟩, s) := by
  have hdir' : (if jsRem v 360 < 0 then roundDouble (jsRem v 360 + 360)
      else JsNumber.num (jsRem v 360)) = .num dirv := hdir
  simp only [EvaluateDirection, hp]
  rw [hdir']
  dsimp only
  rw [if_neg (by simp [hz]), hk]

lemma EvaluateDirection_num_err (d : GameData) (l : RouteLookup) (s : RouteState)
    (arg : String) (v dirv : ℚ)
    (hp : jsParseFloat arg = .num v)
    (hdir : jsNormalize v = .num dirv)
    (hz : jsRem dirv 45 ≠ 0) :
    EvaluateDirection d ["dir", arg] l s
      = (.err "dir value must be in intervals of 45", s) := by
  have hdir' : (if jsRem v 360 < 0 then roundDouble (jsRem v 360 + 360)
      else JsNumber.num (jsRem v 360)) = .num dirv := hdir
  simp only [EvaluateDirection, hp]
  rw [hdir']
  dsimp only
  rw [if_pos hz]

lemma jsParseFloat_dec (str : String) (neg : Bool) (i f fl : ℕ) (ex : ℤ) (v : ℚ)
    (hpd : parseDecimal str = some (neg, .dec i f fl ex))
    (hv : decValue neg i f fl ex = v) :
    jsParseFloat str = roundDouble v := by
  unfold jsParseFloat
  rw [hpd]
  dsimp only
  rw [hv]

/-- C6 (amended): `dir` evaluation.  A non-numeric argument yields the
not-a-number diagnostic, and an infinite one the 45-interval diagnostic
(in the source, an infinite `parsed % 360` is `NaN`, which fails the
multiple-of-45 test).  A finite parsed value is normalized by the exact JS
remainder modulo 360 plus a rounded binary64 addition of 360 when negative,
landing in the closed interval from 0 to 360 — the upper endpoint 360 is
attained, see `dir_boundary_counterexample`, so the original claim's
half-open interval and 0..7 index range are refuted.  The normalized angle
must be a multiple of 45 (else the 45-interval diagnostic), and on success
the index is the floor of the normalized angle divided by 45, between 0
and 8.  Inputs -45, 405, 360 give indices 7, 1, 0 and input 50 fails with
the 45-interval diagnostic. -/
theorem dir_normalization (qe qte : QuestEval) (d : GameData) (lookup : RouteLookup)
    (s : RouteState) (arg : String) :
    (jsParseFloat arg = .nan →
      evaluateAction qe qte d ["dir", arg] lookup s = (.err "dir value is not a number", s))
    ∧ (∀ b : Bool, jsParseFloat arg = .inf b →
        evaluateAction qe qte d ["dir", arg] lookup s
          = (.err "dir value must be in intervals of 45", s))
    ∧ (∀ q : ℚ, jsParseFloat arg = .num q →
        ∃ dirq : ℚ, jsNormalize q = .num dirq
          ∧ (0 ≤ dirq ∧ dirq ≤ 360)
          ∧ (jsRem dirq 45 = 0 ↔ ∃ k : ℤ, dirq = 45 * k)
          ∧ (jsRem dirq 45 ≠ 0 →
              evaluateAction qe qte d ["dir", arg] lookup s
                = (.err "dir value must be in intervals of 45", s))
          ∧ (jsRem dirq 45 = 0 →
              evaluateAction qe qte d ["dir", arg] lookup s
                = (.ok ⟨some (.dir ⌊dirq / 45⌋), []⟩, s)
              ∧ 0 ≤ ⌊dirq / 45⌋ ∧ ⌊dirq / 45⌋ ≤ 8))
    ∧ evaluateAction qe qte d ["dir", "-45"] lookup s = (.ok ⟨some (.dir 7), []⟩, s)
    ∧ evaluateAction qe qte d ["dir", "405"] lookup s = (.ok ⟨some (.dir 1), []⟩, s)
    ∧ evaluateAction qe qte d ["dir", "360"] lookup s = (.ok ⟨some (.dir 0), []⟩, s)
    ∧ evaluateAction qe qte d ["dir", "50"] lookup s
        = (.err "dir value must be in intervals of 45", s) := by
  have hrd315 : roundDouble (315 : ℚ) = .num 315 := by
    have ha : |(315 : ℚ)| = ((315 : ℤ) : ℚ) := by
      rw [abs_of_nonneg (by norm_num : (0:ℚ) ≤ 315)]
      norm_num
    exact roundDouble_exact _ 8 315 (by norm_num) (by rw [ha]; norm_num)
      (by rw [ha]; norm_num) (by norm_num) (by norm_num) ha
  have hp45 : jsParseFloat "-45" = .num (-45) := by
    rw [jsParseFloat_dec "-45" true 45 0 0 0 (-45) (by decide) (by norm_num [decValue])]
    have ha : |(-45 : ℚ)| = ((45 : ℤ) : ℚ) := by
      rw [abs_neg, abs_of_nonneg (by norm_num : (0:ℚ) ≤ 45)]
      norm_num
    exact roundDouble_exact _ 5 45 (by norm_num) (by rw [ha]; norm_num)
      (by rw [ha]; norm_num) (by norm_num) (by norm_num) ha
  have hp405 : jsParseFloat "405" = .num 405 := by
    rw [jsParseFloat_dec "405" false 405 0 0 0 405 (by decide) (by norm_num [decValue])]
    have ha : |(405 : ℚ)| = ((405 : ℤ) : ℚ) := by
      rw [abs_of_nonneg (by norm_num : (0:ℚ) ≤ 405)]
      norm_num
    exact roundDouble_exact _ 8 405 (by norm_num) (by rw [ha]; norm_num)
      (by rw [ha]; norm_num) (by norm_num) (by norm_num) ha
  have hp360 : jsParseFloat "360" = .num 360 := by
    rw [jsParseFloat_dec "360" false 360 0 0 0 360 (by decide) (by norm_num [decValue])]
    have ha : |(360 : ℚ)| = ((360 : ℤ) : ℚ) := by
      rw [abs_of_nonneg (by norm_num : (0:ℚ) ≤ 360)]
      norm_num
    exact roundDouble_exact _ 8 360 (by norm_num) (by rw [ha]; norm_num)
      (by rw [ha]; norm_num) (by norm_num) (by norm_num) ha
  have hp50 : jsParseFloat "50" = .num 50 := by
    rw [jsParseFloat_dec "50" false 50 0 0 0 50 (by decide) (by norm_num [decValue])]
    have ha : |(50 : ℚ)| = ((50 : ℤ) : ℚ) := by
      rw [abs_of_nonneg (by norm_num : (0:ℚ) ≤ 50)]
      norm_num
    exact roundDouble_exact _ 5 50 (by norm_num) (by rw [ha]; norm_num)
      (by rw [ha]; norm_num) (by norm_num) (by norm_num) ha
  have hrem45 : jsRem (-45 : ℚ) 360 = -45 :=
    jsRem_self_of_neg (-45) 360 (by norm_num) (by norm_num) (by norm_num)
  have hnorm45 : jsNormalize (-45 : ℚ) = .num 315 := by
    unfold jsNormalize
    rw [hrem45, if_pos (by norm_num : (-45:ℚ) < 0),
      show (-45 : ℚ) + 360 = 315 from by norm_num]
    exact hrd315
  have hrem405 : jsRem (405 : ℚ) 360 = 45 := by
    unfold jsRem
    rw [show ratTrunc ((405 : ℚ) / 360) = 1 from by
      rw [ratTrunc, if_pos (by norm_num)]
      exact Int.floor_eq_iff.mpr (by norm_num)]
    norm_num
  have hnorm405 : jsNormalize (405 : ℚ) = .num 45 := by
    unfold jsNormalize
    rw [hrem405, if_neg (by norm_num : ¬((45:ℚ) < 0))]
  have hrem360 : jsRem (360 : ℚ) 360 = 0 :=
    (jsRem_eq_zero_iff 360 360 (by norm_num)).mpr ⟨1, by norm_num⟩
  have hnorm360 : jsNormalize (360 : ℚ) = .num 0 := by
    unfold jsNormalize
    rw [hrem360, if_neg (by norm_num : ¬((0:ℚ) < 0))]
  have hrem50 : jsRem (50 : ℚ) 360 = 50 :=
    jsRem_self_of_lt 50 360 (by norm_num) (by norm_num) (by norm_num)
  have hnorm50 : jsNormalize (50 : ℚ) = .num 50 := by
    unfold jsNormalize
    rw [hrem50, if_neg (by norm_num : ¬((50:ℚ) < 0))]
  have hz315 : jsRem (315 : ℚ) 45 = 0 :=
    (jsRem_eq_zero_iff 315 45 (by norm_num)).mpr ⟨7, by norm_num⟩
  have hz45 : jsRem (45 : ℚ) 45 = 0 :=
    (jsRem_eq_zero_iff 45 45 (by norm_num)).mpr ⟨1, by norm_num⟩
  have hz0 : jsRem (0 : ℚ) 45 = 0 :=
    (jsRem_eq_zero_iff 0 45 (by norm_num)).mpr ⟨0, by norm_num⟩
  have hz50 : jsRem (50 : ℚ) 45 ≠ 0 := by
    intro h
    obtain ⟨k, hk⟩ := (jsRem_eq_zero_iff 50 45 (by norm_num)).mp h
    have hk1 : (1:ℚ) < (k:ℚ) := by linarith
    have hk2 : (k:ℚ) < 2 := by linarith
    have hi1 : (1:ℤ) < k := by exact_mod_cast hk1
    have hi2 : k < 2 := by exact_mod_cast hk2
    omega
  refine ⟨?_, ?_, ?_, ?_, ?_, ?_, ?_⟩
  · intro hp
    rw [evaluateAction_dir]
    exact EvaluateDirection_nan d lookup s arg hp
  · intro b hp
    rw [evaluateAction_dir]
    exact EvaluateDirection_infty d lookup s arg b hp
  · intro q hp
    obtain ⟨dirq, hdq, hb1, hb2⟩ := jsNormalize_num q
    refine ⟨dirq, hdq, ⟨hb1, hb2⟩, jsRem_eq_zero_iff dirq 45 (by norm_num), ?_, ?_⟩
    · intro hz
      rw [evaluateAction_dir]
      exact EvaluateDirection_num_err d lookup s arg q dirq hp hdq hz
    · intro hz
      refine ⟨?_, ?_, ?_⟩
      · rw [evaluateAction_dir]
        exact EvaluateDirection_num_ok d lookup s arg q dirq _ hp hdq hz rfl
      · exact Int.floor_nonneg.mpr (div_nonneg hb1 (by norm_num))
      · have h9 : dirq / 45 < 9 := by linarith
        have h9' := Int.floor_lt.mpr (by exact_mod_cast h9 : dirq / 45 < ((9:ℤ):ℚ))
        omega
  · rw [evaluateAction_dir]
    exact EvaluateDirection_num_ok d lookup s "-45" (-45) 315 7 hp45 hnorm45 hz315
      (Int.floor_eq_iff.mpr (by norm_num))
  · rw [evaluateAction_dir]
    exact EvaluateDirection_num_ok d lookup s "405" 405 45 1 hp405 hnorm405 hz45
      (Int.floor_eq_iff.mpr (by norm_num))
  · rw [evaluateAction_dir]
    exact EvaluateDirection_num_ok d lookup s "360" 360 0 0 hp360 hnorm360 hz0
      (Int.floor_eq_iff.mpr (by norm_num))
  · rw [evaluateAction_dir]
    exact EvaluateDirection_num_err d lookup s "50" 50 50 hp50 hnorm50 hz50

/-- Witness for C6 at a concrete input: the -45 case on the demo world. -/
theorem dir_normalization_witness :
    evaluateAction questStub questStub demoData ["dir", "-45"] demoLookup
        initializeRouteState = (.ok ⟨some (.dir 7), []⟩, initializeRouteState) :=
  (dir_normalization questStub questStub demoData demoLookup initializeRouteState
      "-45").2.2.2.1

/-- C6 counterexample to the original claim's half-open interval and 0..7
index range: `parseFloat("-1e-15")` is the binary64 value
`-5070602400912918 * 2^(-102)`; its JS remainder modulo 360 is itself,
negative, and the rounded double addition of 360 yields exactly 360 (the
addend's magnitude is below half an ulp of 360), a multiple of 45 whose
index is the floor of 360 / 45 = 8 — so the program succeeds with sector
index 8 and a normalized angle of 360, outside the claimed ranges. -/
theorem dir_boundary_counterexample :
    evaluateAction questStub questStub demoData ["dir", "-1e-15"] demoLookup
        initializeRouteState = (.ok ⟨some (.dir 8), []⟩, initializeRouteState) := by
  have haV : |(-(1/1000000000000000 : ℚ))| = 1/1000000000000000 := by
    rw [abs_neg, abs_of_nonneg (by norm_num : (0:ℚ) ≤ 1/1000000000000000)]
  have hlogV : Int.log 2 |(-(1/1000000000000000 : ℚ))| = -50 := by
    rw [haV]
    exact log2_eq_of_bounds _ (-50) (by norm_num) (by norm_num) (by norm_num)
  have hmaxV : max ((-50 : ℤ) - 52) (-1074 : ℤ) = -102 := by decide
  have hnV : roundHalfEven (|(-(1/1000000000000000 : ℚ))| / 2 ^ (-102 : ℤ))
      = 5070602400912918 := by
    rw [haV, show (1/1000000000000000 : ℚ) / 2 ^ (-102 : ℤ)
      = 5070602400912917605986812821504 / 1000000000000000 from by norm_num]
    rw [roundHalfEven_eq_add_one _ 5070602400912917
      (Int.floor_eq_iff.mpr (by norm_num)) (by norm_num)]
    norm_num
  have hrdV : roundDouble (-(1/1000000000000000 : ℚ))
      = .num (-((5070602400912918 : ℚ) * (2:ℚ) ^ (-102 : ℤ))) := by
    rw [roundDouble_eval (-(1/1000000000000000 : ℚ)) (-50) (-102) 5070602400912918
      (by norm_num) hlogV hmaxV hnV (by norm_num)]
    rw [if_pos (by norm_num : (-(1/1000000000000000 : ℚ)) < 0)]
    norm_num
  have hp : jsParseFloat "-1e-15" = .num (-((5070602400912918 : ℚ) * (2:ℚ) ^ (-102 : ℤ))) := by
    rw [jsParseFloat_dec "-1e-15" true 1 0 0 (-15) (-(1/1000000000000000 : ℚ))
      (by decide) (by norm_num [decValue])]
    exact hrdV
  have hrem : jsRem (-((5070602400912918 : ℚ) * (2:ℚ) ^ (-102 : ℤ))) 360
      = -((5070602400912918 : ℚ) * (2:ℚ) ^ (-102 : ℤ)) :=
    jsRem_self_of_neg _ 360 (by norm_num) (by norm_num) (by norm_num)
  have haB : |(-((5070602400912918 : ℚ) * (2:ℚ) ^ (-102 : ℤ)) + 360)|
      = -((5070602400912918 : ℚ) * (2:ℚ) ^ (-102 : ℤ)) + 360 := by
    rw [abs_of_pos (by norm_num)]
  have hlogB : Int.log 2 |(-((5070602400912918 : ℚ) * (2:ℚ) ^ (-102 : ℤ)) + 360)| = 8 := by
    rw [haB]
    exact log2_eq_of_bounds _ 8 (by norm_num) (by norm_num) (by norm_num)
  have hmaxB : max ((8 : ℤ) - 52) (-1074 : ℤ) = -44 := by decide
  have hnB : roundHalfEven
      (|(-((5070602400912918 : ℚ) * (2:ℚ) ^ (-102 : ℤ)) + 360)| / 2 ^ (-44 : ℤ))
      = 6333186975989760 := by
    rw [haB, show (-((5070602400912918 : ℚ) * (2:ℚ) ^ (-102 : ℤ)) + 360) / 2 ^ (-44 : ℤ)
      = 6333186975989760 - 5070602400912918 / 288230376151711744 from by norm_num]
    rw [roundHalfEven_eq_add_one _ 6333186975989759
      (Int.floor_eq_iff.mpr (by norm_num)) (by norm_num)]
    norm_num
  have hnorm : jsNormalize (-((5070602400912918 : ℚ) * (2:ℚ) ^ (-102 : ℤ))) = .num 360 := by
    unfold jsNormalize
    rw [hrem, if_pos (by norm_num : -((5070602400912918 : ℚ) * (2:ℚ) ^ (-102 : ℤ)) < 0)]
    rw [roundDouble_eval (-((5070602400912918 : ℚ) * (2:ℚ) ^ (-102 : ℤ)) + 360) 8 (-44)
      6333186975989760 (by norm_num) hlogB hmaxB hnB (by norm_num)]
    rw [if_neg (by norm_num : ¬(-((5070602400912918 : ℚ) * (2:ℚ) ^ (-102 : ℤ)) + 360 < 0))]
    norm_num
  rw [evaluateAction_dir]
  exact EvaluateDirection_num_ok demoData demoLookup initializeRouteState "-1e-15"
    (-((5070602400912918 : ℚ) * (2:ℚ) ^ (-102 : ℤ))) 360 8 hp hnorm
    ((jsRem_eq_zero_iff 360 45 (by norm_num)).mpr ⟨8, by norm_num⟩)
    (Int.floor_eq_iff.mpr (by norm_num))

/-! ## Lexer and assembler lemmas (for C7) -/

lemma scanPartsFuel_nil (fuel : Nat) : scanPartsFuel fuel [] = [] := by
  cases fuel <;> rfl

lemma dropWhile_append_all {p : Char → Bool} {ws l : List Char}
    (h : ∀ c ∈ ws, p c = true) : (ws ++ l).dropWhile p = l.dropWhile p := by
  induction ws with
  | nil => rfl
  | cons c rest ih =>
    have hc : p c = true := h c (List.mem_cons_self _ _)
    simp only [List.cons_append, List.dropWhile_cons, hc, if_true]
    exact ih (fun x hx => h x (List.mem_cons_of_mem _ hx))

lemma dropWhile_eq_nil_all {p : Char → Bool} {l : List Char}
    (h : ∀ c ∈ l, p c = true) : l.dropWhile p = [] := by
  induction l with
  | nil => rfl
  | cons c rest ih =>
    have hc : p c = true := h c (List.mem_cons_self _ _)
    simp only [List.dropWhile_cons, hc, if_true]
    exact ih (fun x hx => h x (List.mem_cons_of_mem _ hx))

/-- A line that is whitespace, then a hash sign, then dot-matching
characters, lexes to nothing: the comment alternative swallows it. -/
lemma scanParts_comment (ws rest : List Char)
    (hws : ∀ c ∈ ws, isJsSpace c = true) (hrest : ∀ c ∈ rest, dotChar c = true) :
    scanParts (ws ++ '#' :: rest) = [] := by
  have hdrop : (ws ++ '#' :: rest).dropWhile isJsSpace = '#' :: rest := by
    rw [dropWhile_append_all hws]
    simp [List.dropWhile_cons, isJsSpace]
  cases hcs : ws ++ '#' :: rest with
  | nil => exact absurd hcs (by simp)
  | cons c₀ cs' =>
    rw [hcs] at hdrop
    unfold scanParts
    simp only [scanPartsFuel]
    rw [if_pos (by rw [hdrop]; rfl)]
    rw [hdrop]
    simp only [List.drop_one, List.tail_cons]
    rw [dropWhile_eq_nil_all hrest]
    exact scanPartsFuel_nil _

/-- Evaluating a fragment list of actions that all fail (from any state)
accumulates only diagnostics: no step parts and no extra steps. -/
lemma evalParts_all_err (qe qte : QuestEval) (d : GameData) (l : RouteLookup) :
    ∀ (parts : List LinePart) (s : RouteState),
      (∀ p ∈ parts, ∃ act, p = Sum.inr act) →
      (∀ act s', Sum.inr act ∈ parts →
        ∃ m, (evaluateAction qe qte d act l s').1 = .err m) →
      ∃ r, evalParts qe qte d parts l s = some r ∧ r.parts = [] ∧ r.additional = [] := by
  intro parts
  induction parts with
  | nil =>
    intro s _ _
    exact ⟨⟨[], [], s, []⟩, rfl, rfl, rfl⟩
  | cons p rest ih =>
    intro s hall herr
    obtain ⟨act, rfl⟩ := hall p (List.mem_cons_self _ _)
    obtain ⟨m, hm⟩ := herr act s (List.mem_cons_self _ _)
    have hpair : evaluateAction qe qte d act l s
        = (.err m, (evaluateAction qe qte d act l s).2) := by
      rw [← hm]
    obtain ⟨r, hr, hp1, hp2⟩ :=
      ih ((evaluateAction qe qte d act l s).2)
        (fun x hx => hall x (List.mem_cons_of_mem _ hx))
        (fun a s' ha => herr a s' (List.mem_cons_of_mem _ ha))
    refine ⟨⟨r.parts, r.additional, r.state, actionDiag m act :: r.diags⟩, ?_, hp1, hp2⟩
    rw [evalParts, hpair]
    dsimp only
    rw [hr]
    rfl

/-- C7 (amended): a line that is only a comment (optional whitespace then a
hash sign), or whose fragments are all actions failing validation,
contributes no step; and the line's own `ActionStep` enters the route only
when it accumulated at least one part, followed by the queued extra steps.
(An all-whitespace line without a hash sign is NOT empty: it contributes a
literal step, see the counterexample.) -/
theorem line_contribution (qe qte : QuestEval) (d : GameData) (lookup : RouteLookup) :
    (∀ (ws rest : List Char) (s : RouteState),
      (∀ c ∈ ws, isJsSpace c = true) → (∀ c ∈ rest, dotChar c = true) →
      evalLine qe qte d (String.mk (ws ++ '#' :: rest)) lookup s = some ([], s, []))
    ∧ (∀ (line : String) (s : RouteState),
        (∀ p ∈ parseStep line, ∃ act, p = Sum.inr act) →
        (∀ act s', Sum.inr act ∈ parseStep line →
          ∃ m, (evaluateAction qe qte d act lookup s').1 = .err m) →
        ∃ s' ds, evalLine qe qte d line lookup s = some ([], s', ds))
    ∧ (∀ (line : String) (s : RouteState) (r : LineEval),
        evalParts qe qte d (parseStep line) lookup s = some r → r.parts = [] →
        evalLine qe qte d line lookup s = some (r.additional, r.state, r.diags)) := by
  refine ⟨?_, ?_, ?_⟩
  · intro ws rest s hws hrest
    have hscan : parseStep (String.mk (ws ++ '#' :: rest)) = [] :=
      scanParts_comment ws rest hws hrest
    unfold evalLine
    rw [hscan]
    rfl
  · intro line s hall herr
    obtain ⟨r, hr, hp1, hp2⟩ := evalParts_all_err qe qte d lookup (parseStep line) s hall herr
    refine ⟨r.state, r.diags, ?_⟩
    unfold evalLine
    rw [hr]
    simp [hp1, hp2]
  · intro line s r hr hp
    unfold evalLine
    rw [hr]
    simp [hp]

/-- C7 counterexample: a line consisting only of (non-empty) whitespace does
NOT contribute zero steps; it becomes one `ActionStep` holding the
whitespace as a literal part. -/
theorem whitespace_line_contributes :
    parseRoute questStub questStub ⟨[], []⟩ [" "] ⟨[], none⟩ initializeRouteState
      = some ([[Step.action_step [Sum.inl " "]]], initializeRouteState, []) := by
  decide

/-- Witness for the amended C7 at a concrete input: a comment-only line on
the demo world contributes nothing. -/
theorem line_contribution_witness :
    evalLine questStub questStub demoData (String.mk [' ', '#', 'c']) demoLookup
        initializeRouteState = some ([], initializeRouteState, []) :=
  (line_contribution questStub questStub demoData demoLookup).1
    [' '] ['c'] initializeRouteState (by decide) (by decide)

/-! ## Post-pass diagnostics (for C9) -/

lemma foldl_unused_eq (used : List String) :
    ∀ (l : List String) (init : List String),
      l.foldl (fun acc w => if w ∈ used then acc else acc ++ [unusedMsg w]) init
        = init ++ (l.filter (fun w => decide (w ∉ used))).map unusedMsg := by
  intro l
  induction l with
  | nil => intro init; simp
  | cons w rest ih =>
    intro init
    by_cases hw : w ∈ used
    · simp only [List.foldl_cons, if_pos hw, List.filter_cons]
      rw [ih]
      simp [hw]
    · simp only [List.foldl_cons, if_neg hw, List.filter_cons]
      rw [ih]
      simp [hw]

lemma foldl_craft_eq (state : RouteState) :
    ∀ (l : List (String × Area)) (init : List String),
      l.foldl
        (fun acc p =>
          if 0 < p.2.crafting_recipes.length ∧ p.2.id ∉ state.craftingAreas then
            acc ++ [craftMsg p.2]
          else acc) init
        = init
          ++ (l.filter (fun p =>
                decide (0 < p.2.crafting_recipes.length ∧ p.2.id ∉ state.craftingAreas))).map
              (fun p => craftMsg p.2) := by
  intro l
  induction l with
  | nil => intro init; simp
  | cons p rest ih =>
    intro init
    by_cases hp : 0 < p.2.crafting_recipes.length ∧ p.2.id ∉ state.craftingAreas
    · simp only [List.foldl_cons, if_pos hp, List.filter_cons]
      rw [ih]
      simp [hp]
    · simp only [List.foldl_cons, if_neg hp, List.filter_cons]
      rw [ih]
      simp [hp]

lemma postPass_eq (d : GameData) (fs : RouteState) :
    postPassDiagnostics d fs
      = (fs.explicitWaypoints.filter (fun w => decide (w ∉ fs.usedWaypoints))).map unusedMsg
        ++ (d.areas.filter (fun p =>
              decide (0 < p.2.crafting_recipes.length ∧ p.2.id ∉ fs.craftingAreas))).map
            (fun p => craftMsg p.2) := by
  unfold postPassDiagnostics
  rw [foldl_unused_eq, foldl_craft_eq]
  simp

lemma unusedMsg_injective : Function.Injective unusedMsg := by
  intro a b h
  have hd : "unused waypoint ".data ++ a.data = "unused waypoint ".data ++ b.data :=
    congrArg String.data h
  have hdata : a.data = b.data := List.append_cancel_left hd
  cases a
  cases b
  exact congrArg String.mk hdata

lemma craftMsg_ne_unusedMsg (a : Area) (w : String) : craftMsg a ≠ unusedMsg w := by
  intro h
  have h1 : (craftMsg a).data.head? = some 'm' := rfl
  have h2 : (unusedMsg w).data.head? = some 'u' := rfl
  rw [h, h2] at h1
  exact absurd (Option.some.inj h1) (by decide)

/-- C9: after a full run, the post-pass emits the "unused waypoint"
diagnostics (one per explicitly acquired, never-used waypoint, in set order)
followed by the "missing crafting area" diagnostics (one per table area
with recipes never visited, in table order), and nothing else; the
diagnostics of `parseRoute` end with exactly this list, so the routes
themselves are computed before and unaffected by it. -/
theorem post_pass_diagnostics (qe qte : QuestEval) (d : GameData) (sources : List String)
    (lookup : RouteLookup) (s : RouteState) (routes : List Route) (fs : RouteState)
    (diags : List String)
    (h : parseRoute qe qte d sources lookup s = some (routes, fs, diags)) :
    (∃ pre, diags = pre ++ postPassDiagnostics d fs)
    ∧ postPassDiagnostics d fs
        = (fs.explicitWaypoints.filter (fun w => decide (w ∉ fs.usedWaypoints))).map unusedMsg
          ++ (d.areas.filter (fun p =>
                decide (0 < p.2.crafting_recipes.length ∧ p.2.id ∉ fs.craftingAreas))).map
              (fun p => craftMsg p.2)
    ∧ (fs.explicitWaypoints.Nodup →
        ∀ w ∈ fs.explicitWaypoints, w ∉ fs.usedWaypoints →
          (postPassDiagnostics d fs).count (unusedMsg w) = 1)
    ∧ ∀ msg ∈ postPassDiagnostics d fs,
        (∃ w, msg = unusedMsg w ∧ w ∈ fs.explicitWaypoints ∧ w ∉ fs.usedWaypoints)
        ∨ ∃ p ∈ d.areas, msg = craftMsg p.2 ∧ 0 < p.2.crafting_recipes.length
            ∧ p.2.id ∉ fs.craftingAreas := by
  refine ⟨?_, postPass_eq d fs, ?_, ?_⟩
  · unfold parseRoute at h
    cases hd : evalDocs qe qte d sources lookup s with
    | none => rw [hd] at h; exact absurd h (by simp)
    | some r =>
      rw [hd] at h
      have h' : (r.1, r.2.1, r.2.2 ++ postPassDiagnostics d r.2.1)
          = (routes, fs, diags) := Option.some.inj h
      have hfs : r.2.1 = fs :=
        congrArg (fun x : List Route × RouteState × List String => x.2.1) h'
      have hdg : diags = r.2.2 ++ postPassDiagnostics d r.2.1 :=
        (congrArg (fun x : List Route × RouteState × List String => x.2.2) h').symm
      refine ⟨r.2.2, ?_⟩
      rw [hdg, hfs]
  · intro hnodup w hw hwu
    rw [postPass_eq]
    rw [List.count_append]
    have hc2 : ((d.areas.filter (fun p =>
        decide (0 < p.2.crafting_recipes.length ∧ p.2.id ∉ fs.craftingAreas))).map
          (fun p => craftMsg p.2)).count (unusedMsg w) = 0 := by
      rw [List.count_eq_zero]
      intro hmem
      obtain ⟨p, _, hpeq⟩ := List.mem_map.mp hmem
      exact craftMsg_ne_unusedMsg p.2 w hpeq
    rw [hc2]
    rw [List.count_map_of_injective _ unusedMsg unusedMsg_injective]
    have : w ∈ fs.explicitWaypoints.filter (fun w => decide (w ∉ fs.usedWaypoints)) :=
      List.mem_filter.mpr ⟨hw, by simpa using hwu⟩
    rw [List.count_eq_one_of_mem (List.Nodup.filter _ hnodup) this]
  · intro msg hmsg
    rw [postPass_eq] at hmsg
    rcases List.mem_append.mp hmsg with hm | hm
    · obtain ⟨w, hwf, hweq⟩ := List.mem_map.mp hm
      obtain ⟨hw1, hw2⟩ := List.mem_filter.mp hwf
      exact Or.inl ⟨w, hweq.symm, hw1, by simpa using hw2⟩
    · obtain ⟨p, hpf, hpeq⟩ := List.mem_map.mp hm
      obtain ⟨hp1, hp2⟩ := List.mem_filter.mp hpf
      have hp3 := of_decide_eq_true hp2
      exact Or.inr ⟨p, hp1, hpeq.symm, hp3.1, hp3.2⟩

def craftBench : Area := ⟨"c", 1, "Bench", [], false, false, ["r1"]⟩

def demoData9 : GameData := ⟨[("1_1_1", demoWild), ("c", craftBench)], []⟩

/-- Witness for C9 at a concrete input: one unused waypoint and one missed
crafting area after a one-line run. -/
theorem post_pass_diagnostics_witness :
    (∃ pre, ["unused waypoint 1_1_1", "missing crafting area c, r1"]
        = pre ++ postPassDiagnostics demoData9
            { implicitWaypoints := [], explicitWaypoints := ["1_1_1"], usedWaypoints := [],
              craftingAreas := [], currentAreaId := some "1_1_1",
              lastTownAreaId := "1_1_town", portalAreaId := none, acquiredGems := [] })
    ∧ postPassDiagnostics demoData9
        { implicitWaypoints := [], explicitWaypoints := ["1_1_1"], usedWaypoints := [],
          craftingAreas := [], currentAreaId := some "1_1_1",
          lastTownAreaId := "1_1_town", portalAreaId := none, acquiredGems := [] }
        = (List.filter (fun w => decide (w ∉ ([] : List String))) ["1_1_1"]).map unusedMsg
          ++ (demoData9.areas.filter (fun p =>
                decide (0 < p.2.crafting_recipes.length
                  ∧ p.2.id ∉ ([] : List String)))).map (fun p => craftMsg p.2)
    ∧ (List.Nodup ["1_1_1"] →
        ∀ w ∈ ["1_1_1"], w ∉ ([] : List String) →
          (postPassDiagnostics demoData9
            { implicitWaypoints := [], explicitWaypoints := ["1_1_1"], usedWaypoints := [],
              craftingAreas := [], currentAreaId := some "1_1_1",
              lastTownAreaId := "1_1_town", portalAreaId := none,
              acquiredGems := [] }).count (unusedMsg w) = 1)
    ∧ ∀ msg ∈ postPassDiagnostics demoData9
        { implicitWaypoints := [], explicitWaypoints := ["1_1_1"], usedWaypoints := [],
          craftingAreas := [], currentAreaId := some "1_1_1",
          lastTownAreaId := "1_1_town", portalAreaId := none, acquiredGems := [] },
        (∃ w, msg = unusedMsg w ∧ w ∈ ["1_1_1"] ∧ w ∉ ([] : List String))
        ∨ ∃ p ∈ demoData9.areas, msg = craftMsg p.2 ∧ 0 < p.2.crafting_recipes.length
            ∧ p.2.id ∉ ([] : List String) :=
  post_pass_diagnostics questStub questStub demoData9 ["{get_waypoint}"] demoLookup
    initializeRouteState [[Step.action_step [Sum.inr Action.get_waypoint]]]
    { implicitWaypoints := [], explicitWaypoints := ["1_1_1"], usedWaypoints := [],
      craftingAreas := [], currentAreaId := some "1_1_1",
      lastTownAreaId := "1_1_town", portalAreaId := none, acquiredGems := [] }
    ["unused waypoint 1_1_1", "missing crafting area c, r1"] (by decide)

end ExileRoutes
